import Mathlib

/-!
Verification development for the ToyCompiler front end (lexer, token model,
diagnostic engine, AST node family, visitor traversal, AST builder).

Every definition below is a shallow embedding translated from the C sources
under src/: pure C functions become Lean functions, the mutable lexer and
diagnostic-engine structs become explicit state records threaded through the
functions, C `while` loops become structurally recursive helpers driven by a
fuel argument that the call site sets to the loop's advance bound
(remaining input + slack), so a run that terminates in C computes the same
result here, and the one genuinely divergent loop (token scanning at end of
buffer, and the batch tokenize loop) returns `Option`, `none` standing for
divergence.  Machine integers are Nat/Int; the single place where C size_t
arithmetic can wrap (the number-rescan rewind in lexerReadNumber) applies
an explicit mod 2^64.
-/

/-! ## C character classification (ASCII locale, ctype.h) -/

/-- NUL character, the C lexer's end-of-input sentinel. -/
def cNUL : Char := Char.ofNat 0

/-- Backslash character. -/
def cBSL : Char := Char.ofNat 92

/-- Single-quote character. -/
def cSQ : Char := Char.ofNat 39

/-- Double-quote character. -/
def cDQ : Char := Char.ofNat 34

/-- Line-feed character. -/
def cLF : Char := Char.ofNat 10

/-- Carriage-return character. -/
def cCR : Char := Char.ofNat 13

/-- Horizontal tab character. -/
def cTAB : Char := Char.ofNat 9

/-- Vertical tab character. -/
def cVT : Char := Char.ofNat 11

/-- Form-feed character. -/
def cFF : Char := Char.ofNat 12

/-- C `isdigit` over ASCII. -/
def isdigitC (c : Char) : Bool := '0' ≤ c && c ≤ '9'

/-- C `isalpha` over ASCII. -/
def isalphaC (c : Char) : Bool := ('a' ≤ c && c ≤ 'z') || ('A' ≤ c && c ≤ 'Z')

/-- C `isalnum` over ASCII. -/
def isalnumC (c : Char) : Bool := isalphaC c || isdigitC c

/-- C `isxdigit` over ASCII. -/
def isxdigitC (c : Char) : Bool :=
  isdigitC c || ('a' ≤ c && c ≤ 'f') || ('A' ≤ c && c ≤ 'F')

/-- C `ispunct` over ASCII: printable, not alphanumeric, not space. -/
def ispunctC (c : Char) : Bool :=
  (33 ≤ c.toNat && c.toNat ≤ 126) && !(isalnumC c)

/-- C `isspace` over ASCII. -/
def isspaceC (c : Char) : Bool :=
  c = ' ' || c = cTAB || c = cLF || c = cVT || c = cFF || c = cCR

/-- C `tolower` over ASCII. -/
def tolowerC (c : Char) : Char :=
  if 'A' ≤ c && c ≤ 'Z' then Char.ofNat (c.toNat + 32) else c

/-- Modulus of C `size_t` arithmetic (64-bit). -/
def sizeTMod : Nat := 2 ^ 64

/-! ## SourceLocation (src/src/common/diagnostics/source_location.h,
createSourceLocation in src/src/frontend/lexer/token.c) -/

/-- C struct SourceLocation: optional file name plus int line/column/offset. -/
structure SourceLocation where
  filename : Option String
  line : Int
  column : Int
  offset : Int
deriving Repr, DecidableEq

/-- C createSourceLocation (token.c): builds the location record; the
filename copy (strdup) is value semantics here. -/
def createSourceLocation (filename : Option String) (line column offset : Int) :
    SourceLocation :=
  { filename := filename, line := line, column := column, offset := offset }

/-! ## Diagnostic engine (src/src/common/diagnostics/diagnostic_engine.c) -/

/-- C enum DiagnosticLevel. -/
inductive DiagnosticLevel where
  | note
  | warning
  | error
  | fatal
deriving Repr, DecidableEq

/-- C struct Diagnostic, restricted to the fields the engine fills on every
report (category is always NULL in the reporting path and isError is derived
from the level). -/
structure Diagnostic where
  level : DiagnosticLevel
  location : SourceLocation
  message : String
deriving Repr, DecidableEq

/-- C struct DiagnosticEngine.  The consumer fan-out is modelled by the
`emitted` list: a diagnostic handed to `consumer->handleDiagnostic` is
appended there, in order. -/
structure DiagnosticEngine where
  errorCount : Nat
  warningCount : Nat
  suppressErrors : Bool
  suppressWarnings : Bool
  fatalErrorOccurred : Bool
  emitted : List Diagnostic
deriving Repr, DecidableEq

/-- C createDiagnosticEngine: fresh counters, no suppression, nothing
emitted. -/
def createDiagnosticEngine : DiagnosticEngine :=
  { errorCount := 0, warningCount := 0, suppressErrors := false,
    suppressWarnings := false, fatalErrorOccurred := false, emitted := [] }

/-- C diagnosticEngineReport: suppressed warnings and suppressed
errors/fatals return before any counter is updated or the consumer is
called; otherwise the counters are updated and the diagnostic is handed to
the consumer.  The C varargs formatting happens before this point, so the
message arrives as a final string. -/
def diagnosticEngineReport (eng : DiagnosticEngine) (level : DiagnosticLevel)
    (location : SourceLocation) (message : String) : DiagnosticEngine :=
  if level = .warning && eng.suppressWarnings then eng
  else if (level = .error || level = .fatal) && eng.suppressErrors then eng
  else
    let eng :=
      if level = .error || level = .fatal then
        { eng with errorCount := eng.errorCount + 1,
                   fatalErrorOccurred :=
                     eng.fatalErrorOccurred || level = .fatal }
      else if level = .warning then
        { eng with warningCount := eng.warningCount + 1 }
      else eng
    { eng with emitted := eng.emitted ++ [⟨level, location, message⟩] }

/-- C diagnosticEngineGetErrorCount. -/
def diagnosticEngineGetErrorCount (eng : DiagnosticEngine) : Nat :=
  eng.errorCount

/-- C diagnosticEngineGetWarningCount. -/
def diagnosticEngineGetWarningCount (eng : DiagnosticEngine) : Nat :=
  eng.warningCount

/-- C diagnosticEngineHasErrors: errorCount strictly positive. -/
def diagnosticEngineHasErrors (eng : DiagnosticEngine) : Bool :=
  eng.errorCount > 0

/-- C diagnosticEngineSetSuppressErrors. -/
def diagnosticEngineSetSuppressErrors (eng : DiagnosticEngine) (b : Bool) :
    DiagnosticEngine :=
  { eng with suppressErrors := b }

/-- C diagnosticEngineSetSuppressWarnings. -/
def diagnosticEngineSetSuppressWarnings (eng : DiagnosticEngine) (b : Bool) :
    DiagnosticEngine :=
  { eng with suppressWarnings := b }

/-- Modelled from the spec: the diagnostics collaborator interface is
`report(level, location, formattedMessage)`.  The AST builder
(src/src/frontend/ast/ast_builder.c) reports through a function
`diagnosticEngineEmitDiagnostic(engine, level, message, location, detail,
code)` whose definition is not among the excerpted sources; it is modelled
here as a report of the formatted message at the given level and
location. -/
def diagnosticEngineEmitDiagnostic (eng : DiagnosticEngine)
    (level : DiagnosticLevel) (message : String) (location : SourceLocation) :
    DiagnosticEngine :=
  diagnosticEngineReport eng level location message

/-! ## Token model (src/src/frontend/lexer/token.h, token.c) -/

/-- C enum TokenType, in declaration order (the order fixes the index used
by tokenTypeToString). -/
inductive TokenType where
  | intKw | floatKw | charKw | doubleKw | voidKw | ifKw | elseKw | whileKw
  | forKw | doKw | returnKw | breakKw | continueKw | switchKw | caseKw
  | defaultKw | structKw | unionKw | enumKw | typedefKw | staticKw
  | externKw | constKw | unsignedKw | signedKw | sizeofKw | autoKw
  | registerKw | volatileKw | gotoKw
  | alignasKw | alignofKw | atomicKw | genericKw | staticAssertKw
  | threadLocalKw | noreturnKw
  | identifier
  | integerLiteral | floatLiteral | charLiteral | stringLiteral
  | plus | minus | multiply | divide | modulo | assign
  | plusAssign | minusAssign | multiplyAssign | divideAssign | moduloAssign
  | equal | notEqual | less | lessEqual | greater | greaterEqual
  | logicalAnd | logicalOr | logicalNot | bitwiseAnd | bitwiseOr
  | bitwiseNot | bitwiseXor | leftShift | rightShift
  | increment | decrement
  | lparen | rparen | lbracket | rbracket | lbrace | rbrace
  | semicolon | comma | dot | arrow | colon | question | ellipsis
  | eof | newline | whitespace | comment | unknown
  | hash | hashHash
  | ppDefine | ppUndef | ppInclude | ppIf | ppIfdef | ppIfndef
  | ppElif | ppElse | ppEndif | ppLine | ppError | ppPragma | ppWarning
deriving Repr, DecidableEq

/-- C enum LiteralType. -/
inductive LiteralType where
  | decimal | hexadecimal | octal | binary
  | float | double | char | wchar | string | wstring
deriving Repr, DecidableEq

/-- The C Token value union together with its `hasValue` discipline:
`noValue` models the union left unwritten. -/
inductive TokenValue where
  | noValue
  | intValue (v : Int)
  | floatValue (v : Rat)
  | charValue (byte : Nat)
  | stringValue (bytes : List Nat)
deriving Repr, DecidableEq

/-- C struct Token (userData dropped: it is never set by the lexer). -/
structure Token where
  type : TokenType
  lexeme : Option String
  length : Nat
  location : SourceLocation
  value : TokenValue
  hasValue : Bool
  isWide : Bool
  literalType : LiteralType
  flags : Nat
deriving Repr, DecidableEq

/-- C createToken (token.c): lexeme (when present) is copied and measured;
value flags are zeroed, literalType defaults to decimal. -/
def createToken (type : TokenType) (lexeme : Option String)
    (location : SourceLocation) : Token :=
  { type := type, lexeme := lexeme,
    length := (lexeme.map String.length).getD 0,
    location := location, value := .noValue, hasValue := false,
    isWide := false, literalType := .decimal, flags := 0 }

/-- C createTokenWithValue. -/
def createTokenWithValue (type : TokenType) (lexeme : Option String)
    (location : SourceLocation) (intValue : Int) : Token :=
  { createToken type lexeme location with
    value := .intValue intValue, hasValue := true, literalType := .decimal }

/-- C createTokenWithFloatValue; the C double is modelled as the exact
rational the conversion produced. -/
def createTokenWithFloatValue (type : TokenType) (lexeme : Option String)
    (location : SourceLocation) (floatValue : Rat) : Token :=
  { createToken type lexeme location with
    value := .floatValue floatValue, hasValue := true, literalType := .float }

/-- C createTokenWithStringValue. -/
def createTokenWithStringValue (type : TokenType) (lexeme : Option String)
    (location : SourceLocation) (stringValue : List Nat) (isWide : Bool) :
    Token :=
  { createToken type lexeme location with
    value := .stringValue stringValue, hasValue := true, isWide := isWide,
    literalType := if isWide then .wstring else .string }

/-- C createTokenWithCharValue. -/
def createTokenWithCharValue (type : TokenType) (lexeme : Option String)
    (location : SourceLocation) (charValue : Nat) (isWide : Bool) : Token :=
  { createToken type lexeme location with
    value := .charValue charValue, hasValue := true, isWide := isWide,
    literalType := if isWide then .wchar else .char }

/-- C static array tokenTypeStrings (token.c): 90 entries, indexed by the
numeric value of the TokenType enum.  The separator block has one entry
more than the separator enum range, so every separator and the special
markers read a skewed entry: this is the array as written. -/
def tokenTypeStrings : List String :=
  ["int", "float", "char", "double", "void", "if", "else", "while", "for",
   "do", "return", "break", "continue", "switch", "case", "default",
   "struct", "union", "enum", "typedef", "static", "extern", "const",
   "unsigned", "signed", "sizeof", "auto", "register", "volatile", "goto",
   "alignas", "alignof", "atomic", "generic", "static_assert",
   "thread_local", "noreturn",
   "identifier", "integer_literal", "float_literal", "char_literal",
   "string_literal",
   "+", "-", "*", "/", "%", "=", "+=", "-=", "*=", "/=", "%=", "==", "!=",
   "<", "<=", ">", ">=", "&&", "||", "!", "&", "|", "~", "^", "<<", ">>",
   "++", "--",
   "\x7b", "\x7d", "(", ")", "[", "]", ".", ",", ";", ":", "?", "...",
   "->", "->*",
   "eof", "newline", "whitespace", "comment", "preprocessor", "unknown"]

/-- C tokenTypeToString: bounds-checked array lookup by enum index, default
"unknown". -/
def tokenTypeToString (t : TokenType) : String :=
  tokenTypeStrings.getD t.toCtorIdx "unknown"

/-! ## C library numeric conversions used by the token factories -/

/-- Value of one digit character in the given base (strtoll digit set:
0-9 then letters case-insensitively). -/
def digitValC (base : Nat) (c : Char) : Option Nat :=
  let v : Option Nat :=
    if isdigitC c then some (c.toNat - 48)
    else if 'a' ≤ c && c ≤ 'z' then some (c.toNat - 97 + 10)
    else if 'A' ≤ c && c ≤ 'Z' then some (c.toNat - 65 + 10)
    else none
  match v with
  | some d => if d < base then some d else none
  | none => none

/-- Magnitude scan of strtoll: consume the maximal run of valid digits. -/
def strtollDigits (base : Nat) : List Char → Nat → Nat
  | [], acc => acc
  | c :: cs, acc =>
    match digitValC base c with
    | some d => strtollDigits base cs (acc * base + d)
    | none => acc

/-- Modelled C `strtoll(s, NULL, base)` restricted to an explicit base:
skip whitespace, optional sign, optional 0x/0X prefix when base is 16,
then the maximal digit run, clamped to the long long range. -/
def strtollC (s : List Char) (base : Nat) : Int :=
  let s := s.dropWhile isspaceC
  let (neg, s) : Bool × List Char :=
    match s with
    | '-' :: rest => (true, rest)
    | '+' :: rest => (false, rest)
    | _ => (false, s)
  let s :=
    match s with
    | '0' :: x :: c :: rest =>
      if base = 16 && (x = 'x' || x = 'X') && isxdigitC c then c :: rest
      else '0' :: x :: c :: rest
    | _ => s
  let m := strtollDigits base s 0
  if neg then
    if m ≥ 2 ^ 63 then -(2 ^ 63 : Int) else -(m : Int)
  else
    if m ≥ 2 ^ 63 then (2 ^ 63 - 1 : Int) else (m : Int)

/-- Decimal digit scan returning accumulated value, digit count and the
rest of the input. -/
def scanDecDigits : List Char → Nat → Nat → Nat × Nat × List Char
  | [], acc, cnt => (acc, cnt, [])
  | c :: cs, acc, cnt =>
    if isdigitC c then scanDecDigits cs (acc * 10 + (c.toNat - 48)) (cnt + 1)
    else (acc, cnt, c :: cs)

/-- Modelled C `strtod(s, NULL)` on plain decimal literals (no hex floats,
infinities or NaNs, which no lexeme of this lexer produces): the exact
decimal value as a rational.  A correctly rounded strtod returns exactly
this value whenever it is representable as a double. -/
def strtodC (s : List Char) : Rat :=
  let s := s.dropWhile isspaceC
  let (neg, s) : Bool × List Char :=
    match s with
    | '-' :: rest => (true, rest)
    | '+' :: rest => (false, rest)
    | _ => (false, s)
  let (ip, _, s) := scanDecDigits s 0 0
  let (fp, fk, s) :=
    match s with
    | '.' :: rest => scanDecDigits rest 0 0
    | _ => (0, 0, s)
  let (expNeg, ev) :=
    match s with
    | e :: rest =>
      if e = 'e' || e = 'E' then
        match rest with
        | '-' :: rest2 => (true, (scanDecDigits rest2 0 0).1)
        | '+' :: rest2 => (false, (scanDecDigits rest2 0 0).1)
        | _ => (false, (scanDecDigits rest 0 0).1)
      else (false, 0)
    | [] => (false, 0)
  let mant : Rat := (ip : Rat) + (fp : Rat) / ((10 : Rat) ^ fk)
  let scaled : Rat :=
    if expNeg then mant / ((10 : Rat) ^ ev) else mant * ((10 : Rat) ^ ev)
  if neg then -scaled else scaled

/-! ## Token factory functions (token.c) -/

/-- C createEOFToken: an EOF token has no lexeme. -/
def createEOFToken (location : SourceLocation) : Token :=
  createToken .eof none location

/-- C createIntegerToken: parse the lexeme with strtoll in the detected
base, then record the base as the literal type. -/
def createIntegerToken (lexeme : String) (location : SourceLocation)
    (base : Nat) : Token :=
  let value := strtollC lexeme.toList base
  let token := createTokenWithValue .integerLiteral (some lexeme) location value
  { token with
    literalType :=
      if base = 16 then .hexadecimal
      else if base = 8 then .octal
      else if base = 2 then .binary
      else .decimal }

/-- C createFloatToken: parse the lexeme with strtod; literal type double. -/
def createFloatToken (lexeme : String) (location : SourceLocation) : Token :=
  let value := strtodC lexeme.toList
  let token := createTokenWithFloatValue .floatLiteral (some lexeme) location value
  { token with literalType := .double }

/-- C createOperatorToken: lexeme looked up in tokenTypeStrings. -/
def createOperatorToken (type : TokenType) (location : SourceLocation) : Token :=
  createToken type (some (tokenTypeToString type)) location

/-- C createPunctuationToken: lexeme looked up in tokenTypeStrings. -/
def createPunctuationToken (type : TokenType) (location : SourceLocation) :
    Token :=
  createToken type (some (tokenTypeToString type)) location

/-! ## Lexer (src/src/frontend/lexer/lexer.c)

The C Lexer struct holds the source buffer and filename (written only by
createLexer/destroyLexer), the mutable scan position
(position/line/column/lineStartOffset), a pointer to the diagnostic
engine, and four mode flags that no scanning function reads or writes.
The embedding splits the struct accordingly: `LexerInput` is the
constant part, `LexerState` the mutable part, and the scanning functions
return the diagnostics they report (in order); an engine-level wrapper
applies them through diagnosticEngineReport exactly as the C call sites
do. -/

/-- Brace characters (kept out of string literals). -/
def cLBrace : Char := Char.ofNat 123

/-- Closing brace character. -/
def cRBrace : Char := Char.ofNat 125

/-- Constant part of the C Lexer struct: source buffer and file name. -/
structure LexerInput where
  source : List Char
  filename : Option String
deriving Repr, DecidableEq

/-- Mutable part of the C Lexer struct: the four scan-position fields that
lexerPeekToken saves and restores. -/
structure LexerState where
  position : Nat
  line : Nat
  column : Nat
  lineStartOffset : Nat
deriving Repr, DecidableEq

/-- C createLexer: copy the buffer, start at position 0, line 1, column 1. -/
def createLexer (source : String) (filename : Option String) :
    LexerInput × LexerState :=
  ({ source := source.toList, filename := filename },
   { position := 0, line := 1, column := 1, lineStartOffset := 0 })

/-- C lexerCurrentChar: the current byte, NUL at or past the end. -/
def lexerCurrentChar (inp : LexerInput) (st : LexerState) : Char :=
  if st.position ≥ inp.source.length then cNUL
  else inp.source.getD st.position cNUL

/-- C lexerPeekChar. -/
def lexerPeekChar (inp : LexerInput) (st : LexerState) (off : Nat) : Char :=
  if st.position + off ≥ inp.source.length then cNUL
  else inp.source.getD (st.position + off) cNUL

/-- C lexerPeekNext. -/
def lexerPeekNext (inp : LexerInput) (st : LexerState) : Char :=
  lexerPeekChar inp st 1

/-- C lexerIsAtEnd. -/
def lexerIsAtEnd (inp : LexerInput) (st : LexerState) : Bool :=
  st.position ≥ inp.source.length

/-- C lexerAdvance: consume one byte, bump column, and on a newline bump
line, reset column and record the new line-start offset. -/
def lexerAdvance (inp : LexerInput) (st : LexerState) : Char × LexerState :=
  if st.position ≥ inp.source.length then (cNUL, st)
  else
    let ch := inp.source.getD st.position cNUL
    let st' : LexerState :=
      { st with position := st.position + 1, column := st.column + 1 }
    if ch = cLF then
      (ch, { st' with line := st'.line + 1, column := 1,
                      lineStartOffset := st'.position })
    else (ch, st')

/-- C lexerCreateCurrentLocation: current position as a SourceLocation. -/
def lexerCreateCurrentLocation (inp : LexerInput) (st : LexerState) :
    SourceLocation :=
  createSourceLocation inp.filename (st.line : Int) (st.column : Int)
    (st.position : Int)

/-- C enum LexerErrorType as used by lexerReportError (lexer.c lines
138-151; the enum declaration itself is in a header outside the excerpted
sources, its members are exactly the cases of that switch). -/
inductive LexerErrorType where
  | invalidCharacter
  | invalidEscapeSequence
  | invalidNumberFormat
  | invalidUnicode
  | unterminatedComment
  | unterminatedChar
  | unterminatedString
  | eofInPreprocessor
  | mismatchedBracket
deriving Repr, DecidableEq

/-- Level assignment of C lexerReportError: character/escape/number/unicode
errors are Error, unterminated constructs and structural errors are Fatal. -/
def lexerErrorLevel : LexerErrorType → DiagnosticLevel
  | .invalidCharacter => .error
  | .invalidEscapeSequence => .error
  | .invalidNumberFormat => .error
  | .invalidUnicode => .error
  | .unterminatedComment => .fatal
  | .unterminatedChar => .fatal
  | .unterminatedString => .fatal
  | .eofInPreprocessor => .fatal
  | .mismatchedBracket => .fatal

/-- C lexerReportError: formats "lexer: " followed by the message and
reports it at the level of the error type.  The model returns the
diagnostic; callers hand it to diagnosticEngineReport in order. -/
def lexerReportError (errorType : LexerErrorType) (location : SourceLocation)
    (message : String) : Diagnostic :=
  { level := lexerErrorLevel errorType, location := location,
    message := "lexer: " ++ message }

/-- Apply reported diagnostics to the engine in order, each through
diagnosticEngineReport, exactly as the C report calls occur. -/
def applyDiagnostics (eng : DiagnosticEngine) (ds : List Diagnostic) :
    DiagnosticEngine :=
  ds.foldl (fun e d => diagnosticEngineReport e d.level d.location d.message)
    eng

/-- Loop body of C lexerSkipWhitespace; the fuel is an upper bound on the
iterations (each one advances at least one byte). -/
def lexerSkipWhitespaceAux (inp : LexerInput) :
    Nat → LexerState → LexerState
  | 0, st => st
  | fuel + 1, st =>
    if lexerIsAtEnd inp st then st
    else
      let ch := lexerCurrentChar inp st
      if ch = ' ' || ch = cTAB || ch = cCR || ch = cLF || ch = cVT ||
          ch = cFF then
        lexerSkipWhitespaceAux inp fuel (lexerAdvance inp st).2
      else if ch = cBSL && lexerPeekNext inp st = cLF then
        lexerSkipWhitespaceAux inp fuel
          (lexerAdvance inp (lexerAdvance inp st).2).2
      else st

/-- C lexerSkipWhitespace: skip blanks and backslash-newline
continuations. -/
def lexerSkipWhitespace (inp : LexerInput) (st : LexerState) : LexerState :=
  lexerSkipWhitespaceAux inp (inp.source.length + 1 - st.position) st

/-- Loop of C lexerSkipLineComment: consume to end of line. -/
def lexerSkipLineCommentAux (inp : LexerInput) :
    Nat → LexerState → LexerState
  | 0, st => st
  | fuel + 1, st =>
    if !lexerIsAtEnd inp st && lexerCurrentChar inp st ≠ cLF then
      lexerSkipLineCommentAux inp fuel (lexerAdvance inp st).2
    else st

/-- C lexerSkipLineComment: consume the two slashes then the rest of the
line. -/
def lexerSkipLineComment (inp : LexerInput) (st : LexerState) : LexerState :=
  let st := (lexerAdvance inp st).2
  let st := (lexerAdvance inp st).2
  lexerSkipLineCommentAux inp (inp.source.length + 1 - st.position) st

/-- Loop of C lexerSkipBlockComment: scan for the closing star-slash;
returns true and consumes it when found, false at end of input. -/
def lexerSkipBlockCommentAux (inp : LexerInput) :
    Nat → LexerState → Bool × LexerState
  | 0, st => (false, st)
  | fuel + 1, st =>
    if lexerIsAtEnd inp st then (false, st)
    else if lexerCurrentChar inp st = '*' && lexerPeekNext inp st = '/' then
      (true, (lexerAdvance inp (lexerAdvance inp st).2).2)
    else lexerSkipBlockCommentAux inp fuel (lexerAdvance inp st).2

/-- C lexerSkipBlockComment: record the location of the opening
slash-star, consume it, scan for the close; an unterminated comment
reports a fatal diagnostic at the recorded start location and returns
false. -/
def lexerSkipBlockComment (inp : LexerInput) (st : LexerState) :
    Bool × LexerState × List Diagnostic :=
  let startOffset := st.position
  let startLine := st.line
  let startColumn := st.column
  let st := (lexerAdvance inp st).2
  let st := (lexerAdvance inp st).2
  match lexerSkipBlockCommentAux inp (inp.source.length + 1 - st.position) st with
  | (true, st') => (true, st', [])
  | (false, st') =>
    let location := createSourceLocation inp.filename (startLine : Int)
      (startColumn : Int) (startOffset : Int)
    (false, st',
     [lexerReportError .unterminatedComment location
        "unterminated block comment"])

/-- C lexerSkipComment: at end of input it returns true; otherwise it
dispatches on the two-character lookahead. -/
def lexerSkipComment (inp : LexerInput) (st : LexerState) :
    Bool × LexerState × List Diagnostic :=
  if lexerIsAtEnd inp st then (true, st, [])
  else
    let ch := lexerCurrentChar inp st
    let next := lexerPeekNext inp st
    if ch = '/' && next = '/' then (true, lexerSkipLineComment inp st, [])
    else if ch = '/' && next = '*' then lexerSkipBlockComment inp st
    else (false, st, [])

/-! ## Keyword and directive tables -/

/-- C static keywordTable, in order, duplicates included. -/
def keywordTable : List (String × TokenType) :=
  [("int", .intKw), ("float", .floatKw), ("char", .charKw),
   ("double", .doubleKw), ("void", .voidKw), ("if", .ifKw),
   ("else", .elseKw), ("while", .whileKw), ("for", .forKw), ("do", .doKw),
   ("return", .returnKw), ("break", .breakKw), ("continue", .continueKw),
   ("switch", .switchKw), ("case", .caseKw), ("default", .defaultKw),
   ("struct", .structKw), ("union", .unionKw), ("enum", .enumKw),
   ("typedef", .typedefKw), ("static", .staticKw), ("extern", .externKw),
   ("const", .constKw), ("unsigned", .unsignedKw), ("signed", .signedKw),
   ("sizeof", .sizeofKw), ("auto", .autoKw), ("register", .registerKw),
   ("volatile", .volatileKw), ("goto", .gotoKw),
   ("alignas", .alignasKw), ("_Alignas", .alignasKw),
   ("alignof", .alignofKw), ("_Alignof", .alignofKw),
   ("atomic", .atomicKw), ("_Atomic", .atomicKw),
   ("generic", .genericKw), ("_Generic", .genericKw),
   ("static_assert", .staticAssertKw), ("_Static_assert", .staticAssertKw),
   ("thread_local", .threadLocalKw), ("_Thread_local", .threadLocalKw),
   ("noreturn", .noreturnKw), ("_Noreturn", .noreturnKw)]

/-- C lexerIsKeyword: linear search of the keyword table, identifier when
unmatched. -/
def lexerIsKeyword (s : String) : TokenType :=
  match keywordTable.find? (fun kv => kv.1 = s) with
  | some kv => kv.2
  | none => .identifier

/-- C static preprocessorDirectiveTable, in order. -/
def preprocessorDirectiveTable : List (String × TokenType) :=
  [("define", .ppDefine), ("undef", .ppUndef), ("include", .ppInclude),
   ("if", .ppIf), ("ifdef", .ppIfdef), ("ifndef", .ppIfndef),
   ("elif", .ppElif), ("else", .ppElse), ("endif", .ppEndif),
   ("line", .ppLine), ("error", .ppError), ("pragma", .ppPragma),
   ("warning", .ppWarning)]

/-- C lexerIsPreprocessorDirective: linear search, identifier when
unmatched. -/
def lexerIsPreprocessorDirective (s : String) : TokenType :=
  match preprocessorDirectiveTable.find? (fun kv => kv.1 = s) with
  | some kv => kv.2
  | none => .identifier

/-! ## Identifier, directive and number scanning -/

/-- Identifier continuation loop of C lexerReadIdentifier. -/
def lexerReadIdentAux (inp : LexerInput) : Nat → LexerState → LexerState
  | 0, st => st
  | fuel + 1, st =>
    if lexerIsAtEnd inp st then st
    else
      let ch := lexerCurrentChar inp st
      if isalnumC ch || ch = '_' then
        lexerReadIdentAux inp fuel (lexerAdvance inp st).2
      else st

/-- C lexerReadIdentifier: maximal letter/digit/underscore run starting at
a letter or underscore, classified against the keyword table.  The
malloc-failure fallbacks of the C code (EOF tokens) cannot occur here. -/
def lexerReadIdentifier (inp : LexerInput) (st : LexerState) :
    Token × LexerState :=
  let start := st.position
  let startColumn := st.column
  let startLine := st.line
  let startOffset := st.position
  let ch := lexerCurrentChar inp st
  let st := if isalphaC ch || ch = '_' then (lexerAdvance inp st).2 else st
  let st := lexerReadIdentAux inp (inp.source.length + 1 - st.position) st
  let lexeme := String.mk ((inp.source.drop start).take (st.position - start))
  let type := lexerIsKeyword lexeme
  let location := createSourceLocation inp.filename (startLine : Int)
    (startColumn : Int) (startOffset : Int)
  (createToken type (some lexeme) location, st)

/-- Directive-name loop of C lexerReadPreprocessorDirective. -/
def lexerReadDirectiveNameAux (inp : LexerInput) :
    Nat → LexerState → LexerState
  | 0, st => st
  | fuel + 1, st =>
    if !lexerIsAtEnd inp st && isalphaC (lexerCurrentChar inp st) then
      lexerReadDirectiveNameAux inp fuel (lexerAdvance inp st).2
    else st

/-- Line-remainder loop of C lexerReadPreprocessorDirective. -/
def lexerReadToLineEndAux (inp : LexerInput) : Nat → LexerState → LexerState
  | 0, st => st
  | fuel + 1, st =>
    if !lexerIsAtEnd inp st && lexerCurrentChar inp st ≠ cLF then
      lexerReadToLineEndAux inp fuel (lexerAdvance inp st).2
    else st

/-- C lexerReadPreprocessorDirective: consume the hash, classify the
directive name, then take the whole physical line as the lexeme. -/
def lexerReadPreprocessorDirective (inp : LexerInput) (st : LexerState) :
    Token × LexerState :=
  let startColumn := st.column
  let startLine := st.line
  let startOffset := st.position
  let st := (lexerAdvance inp st).2
  let st := lexerSkipWhitespace inp st
  let directiveStart := st.position
  let st := lexerReadDirectiveNameAux inp (inp.source.length + 1 - st.position) st
  let directive := String.mk
    ((inp.source.drop directiveStart).take (st.position - directiveStart))
  let type := lexerIsPreprocessorDirective directive
  let location := createSourceLocation inp.filename (startLine : Int)
    (startColumn : Int) (startOffset : Int)
  let st := lexerReadToLineEndAux inp (inp.source.length + 1 - st.position) st
  let lexeme := String.mk
    ((inp.source.drop startOffset).take (st.position - startOffset))
  (createToken type (some lexeme) location, st)

/-- C lexerDetectNumberBase: consume a 0x/0X, 0b/0B or leading-zero octal
prefix and return the base. -/
def lexerDetectNumberBase (inp : LexerInput) (st : LexerState) :
    Nat × LexerState :=
  let ch := lexerCurrentChar inp st
  let next := lexerPeekNext inp st
  if ch = '0' && (next = 'x' || next = 'X') then
    (16, (lexerAdvance inp (lexerAdvance inp st).2).2)
  else if ch = '0' && (next = 'b' || next = 'B') then
    (2, (lexerAdvance inp (lexerAdvance inp st).2).2)
  else if ch = '0' && isdigitC next then
    (8, (lexerAdvance inp st).2)
  else (10, st)

/-- Digit loop of C lexerReadInteger: consume digits valid for the base. -/
def lexerReadIntegerDigitsAux (inp : LexerInput) (base : Nat) :
    Nat → LexerState → LexerState
  | 0, st => st
  | fuel + 1, st =>
    if lexerIsAtEnd inp st then st
    else
      let ch := lexerCurrentChar inp st
      let valid :=
        if base = 16 then isxdigitC ch
        else if base = 10 then isdigitC ch
        else if base = 8 then '0' ≤ ch && ch ≤ '7'
        else if base = 2 then ch = '0' || ch = '1'
        else false
      if valid then lexerReadIntegerDigitsAux inp base fuel (lexerAdvance inp st).2
      else st

/-- Suffix loop of C lexerReadInteger: consume u and l letters,
case-insensitively. -/
def lexerReadSuffixAux (inp : LexerInput) : Nat → LexerState → LexerState
  | 0, st => st
  | fuel + 1, st =>
    if lexerIsAtEnd inp st then st
    else
      let ch := tolowerC (lexerCurrentChar inp st)
      if ch = 'u' || ch = 'l' then
        lexerReadSuffixAux inp fuel (lexerAdvance inp st).2
      else st

/-- C lexerReadInteger: digits for the base, optional integer suffix, then
an integer token built by createIntegerToken (prefix characters consumed
by lexerDetectNumberBase are not part of the lexeme). -/
def lexerReadInteger (inp : LexerInput) (st : LexerState) (base : Nat) :
    Token × LexerState :=
  let start := st.position
  let startColumn := st.column
  let startLine := st.line
  let startOffset := st.position
  let st := lexerReadIntegerDigitsAux inp base (inp.source.length + 1 - st.position) st
  let st := lexerReadSuffixAux inp (inp.source.length + 1 - st.position) st
  let lexeme := String.mk ((inp.source.drop start).take (st.position - start))
  let location := createSourceLocation inp.filename (startLine : Int)
    (startColumn : Int) (startOffset : Int)
  (createIntegerToken lexeme location base, st)

/-- Decimal digit run used by C lexerReadFloat. -/
def lexerReadDecDigitsAux (inp : LexerInput) : Nat → LexerState → LexerState
  | 0, st => st
  | fuel + 1, st =>
    if !lexerIsAtEnd inp st && isdigitC (lexerCurrentChar inp st) then
      lexerReadDecDigitsAux inp fuel (lexerAdvance inp st).2
    else st

/-- C lexerReadFloat: integer part, optional fraction, optional signed
exponent, optional f/l suffix; the float token parses the whole lexeme
with strtod. -/
def lexerReadFloat (inp : LexerInput) (st : LexerState) :
    Token × LexerState :=
  let start := st.position
  let startColumn := st.column
  let startLine := st.line
  let startOffset := st.position
  let st := lexerReadDecDigitsAux inp (inp.source.length + 1 - st.position) st
  let st :=
    if lexerCurrentChar inp st = '.' then
      let st := (lexerAdvance inp st).2
      lexerReadDecDigitsAux inp (inp.source.length + 1 - st.position) st
    else st
  let st :=
    let ch := lexerCurrentChar inp st
    if ch = 'e' || ch = 'E' then
      let st := (lexerAdvance inp st).2
      let st :=
        if lexerCurrentChar inp st = '+' || lexerCurrentChar inp st = '-' then
          (lexerAdvance inp st).2
        else st
      lexerReadDecDigitsAux inp (inp.source.length + 1 - st.position) st
    else st
  let st :=
    let ch := tolowerC (lexerCurrentChar inp st)
    if ch = 'f' || ch = 'l' then (lexerAdvance inp st).2 else st
  let lexeme := String.mk ((inp.source.drop start).take (st.position - start))
  let location := createSourceLocation inp.filename (startLine : Int)
    (startColumn : Int) (startOffset : Int)
  (createFloatToken lexeme location, st)

/-- Lookahead loop of C lexerReadNumber over raw buffer indices. -/
def lexerNumLookaheadAux (inp : LexerInput) : Nat → Nat → Nat
  | 0, la => la
  | fuel + 1, la =>
    if la < inp.source.length && isdigitC (inp.source.getD la cNUL) then
      lexerNumLookaheadAux inp fuel (la + 1)
    else la

/-- C lexerReadNumber.  For a prefixed base the scan reads an integer and,
when a dot follows, rewinds to `oldPos - 2` (size_t arithmetic: for the
one-character octal prefix at the start of the buffer this wraps to a huge
offset) and rescans as a float; for base 10 a lookahead decides between
integer and float. -/
def lexerReadNumber (inp : LexerInput) (st : LexerState) :
    Token × LexerState :=
  let (base, st1) := lexerDetectNumberBase inp st
  if base ≠ 10 then
    let oldPos := st1.position
    let oldCol := st1.column
    let oldLine := st1.line
    let (tok, st2) := lexerReadInteger inp st1 base
    if lexerCurrentChar inp st2 = '.' then
      let st3 : LexerState :=
        { st2 with position := (oldPos + (sizeTMod - 2)) % sizeTMod,
                   column := oldCol, line := oldLine }
      lexerReadFloat inp st3
    else (tok, st2)
  else
    let la := lexerNumLookaheadAux inp (inp.source.length + 1 - st1.position)
      st1.position
    let isFloat :=
      if la < inp.source.length then
        let ch := inp.source.getD la cNUL
        ch = '.' || ch = 'e' || ch = 'E'
      else false
    if isFloat then lexerReadFloat inp st1
    else lexerReadInteger inp st1 10

/-! ## Escape sequences, character and string literals -/

/-- Octal-digit loop of C lexerProcessEscapeSequence (up to 3 digits,
first digit still unconsumed at entry). -/
def lexerEscOctalAux (inp : LexerInput) : Nat → LexerState → Nat → Nat × LexerState
  | 0, st, value => (value, st)
  | fuel + 1, st, value =>
    if lexerIsAtEnd inp st then (value, st)
    else
      let ch := lexerCurrentChar inp st
      if '0' ≤ ch && ch ≤ '7' then
        lexerEscOctalAux inp fuel (lexerAdvance inp st).2
          (value * 8 + (ch.toNat - 48))
      else (value, st)

/-- Hex-digit loop of C lexerProcessEscapeSequence (up to 2 digits). -/
def lexerEscHexAux (inp : LexerInput) : Nat → LexerState → Nat → Nat × LexerState
  | 0, st, value => (value, st)
  | fuel + 1, st, value =>
    if lexerIsAtEnd inp st then (value, st)
    else
      let ch := lexerCurrentChar inp st
      if isxdigitC ch then
        lexerEscHexAux inp fuel (lexerAdvance inp st).2
          (value * 16 +
            (if isdigitC ch then ch.toNat - 48 else (tolowerC ch).toNat - 97 + 10))
      else (value, st)

/-- Unicode-escape loop of C lexerProcessEscapeSequence: up to maxDigits
iterations, advancing only over hex digits (a non-hex character burns an
iteration without advancing, as the C for loop does). -/
def lexerEscUnicodeAux (inp : LexerInput) : Nat → LexerState → LexerState
  | 0, st => st
  | fuel + 1, st =>
    if lexerIsAtEnd inp st then st
    else if isxdigitC (lexerCurrentChar inp st) then
      lexerEscUnicodeAux inp fuel (lexerAdvance inp st).2
    else lexerEscUnicodeAux inp fuel st

/-- C lexerProcessEscapeSequence: consume the backslash and the escape,
returning the decoded byte ((char) narrowing is mod 256) and the success
flag.  Unicode escapes decode to the placeholder byte of '?' by design. -/
def lexerProcessEscapeSequence (inp : LexerInput) (st : LexerState) :
    Nat × Bool × LexerState :=
  let st := (lexerAdvance inp st).2
  if lexerIsAtEnd inp st then (cBSL.toNat, false, st)
  else
    let ch := lexerCurrentChar inp st
    if ch = 'n' then (10, true, (lexerAdvance inp st).2)
    else if ch = 't' then (9, true, (lexerAdvance inp st).2)
    else if ch = 'r' then (13, true, (lexerAdvance inp st).2)
    else if ch = 'b' then (8, true, (lexerAdvance inp st).2)
    else if ch = 'f' then (12, true, (lexerAdvance inp st).2)
    else if ch = 'v' then (11, true, (lexerAdvance inp st).2)
    else if ch = 'a' then (7, true, (lexerAdvance inp st).2)
    else if ch = cBSL then (cBSL.toNat, true, (lexerAdvance inp st).2)
    else if ch = '?' then (63, true, (lexerAdvance inp st).2)
    else if ch = cSQ then (cSQ.toNat, true, (lexerAdvance inp st).2)
    else if ch = cDQ then (cDQ.toNat, true, (lexerAdvance inp st).2)
    else if '0' ≤ ch && ch ≤ '7' then
      let (value, st) := lexerEscOctalAux inp 3 st 0
      (value % 256, true, st)
    else if ch = 'x' || ch = 'X' then
      let st := (lexerAdvance inp st).2
      let (value, st) := lexerEscHexAux inp 2 st 0
      (value % 256, true, st)
    else if ch = 'u' || ch = 'U' then
      let maxDigits := if ch = 'u' then 4 else 8
      let st := (lexerAdvance inp st).2
      (63, true, lexerEscUnicodeAux inp maxDigits st)
    else (ch.toNat % 256, false, (lexerAdvance inp st).2)

/-- C-string truncation at the first NUL, as strdup performs on the
fixed-size lexeme buffers. -/
def cStrTrunc (cs : List Char) : String :=
  String.mk (cs.takeWhile (fun c => c ≠ cNUL))

/-- C lexerReadChar: optional L prefix, opening quote, one character or
escape, optional closing quote (skipped only if present — no error is
reported when it is missing), and the token carries the decoded byte.  At
end of input immediately after the opening quote the C code returns an EOF
token. -/
def lexerReadChar (inp : LexerInput) (st : LexerState) :
    Token × LexerState :=
  let startColumn := st.column
  let startLine := st.line
  let startOffset := st.position
  let (isWide, st) :=
    if lexerCurrentChar inp st = 'L' then (true, (lexerAdvance inp st).2)
    else (false, st)
  let st := (lexerAdvance inp st).2
  if lexerIsAtEnd inp st then
    let loc := createSourceLocation inp.filename (startLine : Int)
      (startColumn : Int) (startOffset : Int)
    (createEOFToken loc, st)
  else
    let (value, st) :=
      if lexerCurrentChar inp st = cBSL then
        let (v, _, st) := lexerProcessEscapeSequence inp st
        (v, st)
      else ((lexerCurrentChar inp st).toNat % 256, (lexerAdvance inp st).2)
    let st :=
      if !lexerIsAtEnd inp st && lexerCurrentChar inp st = cSQ then
        (lexerAdvance inp st).2
      else st
    let location := createSourceLocation inp.filename (startLine : Int)
      (startColumn : Int) (startOffset : Int)
    let lexeme :=
      if isWide then cStrTrunc ['L', cSQ, Char.ofNat value, cSQ]
      else cStrTrunc [cSQ, Char.ofNat value, cSQ]
    (createTokenWithCharValue .charLiteral (some lexeme) location value isWide,
     st)

/-- Accumulation loop of C lexerReadString: decoded bytes are appended
until an unescaped closing quote (consumed), a bare newline (left in
place) or end of input; escape failures are silently ignored. -/
def lexerReadStringLoopAux (inp : LexerInput) :
    Nat → LexerState → List Nat → List Nat × LexerState
  | 0, st, buf => (buf, st)
  | fuel + 1, st, buf =>
    if lexerIsAtEnd inp st then (buf, st)
    else
      let ch := lexerCurrentChar inp st
      if ch = cDQ then (buf, (lexerAdvance inp st).2)
      else if ch = cLF then (buf, st)
      else if ch = cBSL then
        let (v, _, st') := lexerProcessEscapeSequence inp st
        lexerReadStringLoopAux inp fuel st' (buf ++ [v])
      else
        lexerReadStringLoopAux inp fuel (lexerAdvance inp st).2
          (buf ++ [ch.toNat % 256])

/-- C lexerReadString: optional L prefix, opening quote, decoded content,
raw lexeme from the opening position to the current one.  No diagnostic is
reported on an unterminated string. -/
def lexerReadString (inp : LexerInput) (st : LexerState) :
    Token × LexerState :=
  let start := st.position
  let startColumn := st.column
  let startLine := st.line
  let startOffset := st.position
  let (isWide, st) :=
    if lexerCurrentChar inp st = 'L' then (true, (lexerAdvance inp st).2)
    else (false, st)
  let st := (lexerAdvance inp st).2
  let (buffer, st) :=
    lexerReadStringLoopAux inp (inp.source.length + 1 - st.position) st []
  let lexeme := String.mk ((inp.source.drop start).take (st.position - start))
  let location := createSourceLocation inp.filename (startLine : Int)
    (startColumn : Int) (startOffset : Int)
  (createTokenWithStringValue .stringLiteral (some lexeme) location buffer
    isWide, st)

/-! ## Operators and punctuation -/

/-- C lexerReadOperatorOrPunctuation: the big switch, translated case by
case — including the quirks of the original (the three-character
operators check lexerPeekNext after two advances, so <<= and >>= consume
their = only when a fourth character follows it; a two-dot sequence
consumes both dots and yields a dot token; &=, |=, ^=, <<, >> collapse to
their base operator token types). -/
def lexerReadOperatorOrPunctuation (inp : LexerInput) (st : LexerState) :
    Token × LexerState :=
  let ch := lexerCurrentChar inp st
  let location := createSourceLocation inp.filename (st.line : Int)
    (st.column : Int) (st.position : Int)
  let next := lexerPeekNext inp st
  if ch = '=' then
    let st := (lexerAdvance inp st).2
    if next = '=' then (createOperatorToken .equal location, (lexerAdvance inp st).2)
    else (createOperatorToken .assign location, st)
  else if ch = '!' then
    let st := (lexerAdvance inp st).2
    if next = '=' then (createOperatorToken .notEqual location, (lexerAdvance inp st).2)
    else (createOperatorToken .logicalNot location, st)
  else if ch = '<' then
    let st := (lexerAdvance inp st).2
    if next = '=' then (createOperatorToken .lessEqual location, (lexerAdvance inp st).2)
    else if next = '<' then
      let st := (lexerAdvance inp st).2
      if lexerPeekNext inp st = '=' then
        (createOperatorToken .leftShift location, (lexerAdvance inp st).2)
      else (createOperatorToken .leftShift location, st)
    else (createOperatorToken .less location, st)
  else if ch = '>' then
    let st := (lexerAdvance inp st).2
    if next = '=' then (createOperatorToken .greaterEqual location, (lexerAdvance inp st).2)
    else if next = '>' then
      let st := (lexerAdvance inp st).2
      if lexerPeekNext inp st = '=' then
        (createOperatorToken .rightShift location, (lexerAdvance inp st).2)
      else (createOperatorToken .rightShift location, st)
    else (createOperatorToken .greater location, st)
  else if ch = '&' then
    let st := (lexerAdvance inp st).2
    if next = '&' then (createOperatorToken .logicalAnd location, (lexerAdvance inp st).2)
    else if next = '=' then (createOperatorToken .bitwiseAnd location, (lexerAdvance inp st).2)
    else (createOperatorToken .bitwiseAnd location, st)
  else if ch = '|' then
    let st := (lexerAdvance inp st).2
    if next = '|' then (createOperatorToken .logicalOr location, (lexerAdvance inp st).2)
    else if next = '=' then (createOperatorToken .bitwiseOr location, (lexerAdvance inp st).2)
    else (createOperatorToken .bitwiseOr location, st)
  else if ch = '^' then
    let st := (lexerAdvance inp st).2
    if next = '=' then (createOperatorToken .bitwiseXor location, (lexerAdvance inp st).2)
    else (createOperatorToken .bitwiseXor location, st)
  else if ch = '+' then
    let st := (lexerAdvance inp st).2
    if next = '+' then (createOperatorToken .increment location, (lexerAdvance inp st).2)
    else if next = '=' then (createOperatorToken .plusAssign location, (lexerAdvance inp st).2)
    else (createOperatorToken .plus location, st)
  else if ch = '-' then
    let st := (lexerAdvance inp st).2
    if next = '-' then (createOperatorToken .decrement location, (lexerAdvance inp st).2)
    else if next = '=' then (createOperatorToken .minusAssign location, (lexerAdvance inp st).2)
    else if next = '>' then (createOperatorToken .arrow location, (lexerAdvance inp st).2)
    else (createOperatorToken .minus location, st)
  else if ch = '*' then
    let st := (lexerAdvance inp st).2
    if next = '=' then (createOperatorToken .multiplyAssign location, (lexerAdvance inp st).2)
    else (createOperatorToken .multiply location, st)
  else if ch = '/' then
    let st := (lexerAdvance inp st).2
    if next = '=' then (createOperatorToken .divideAssign location, (lexerAdvance inp st).2)
    else (createOperatorToken .divide location, st)
  else if ch = '%' then
    let st := (lexerAdvance inp st).2
    if next = '=' then (createOperatorToken .moduloAssign location, (lexerAdvance inp st).2)
    else (createOperatorToken .modulo location, st)
  else if ch = '(' then ((createPunctuationToken .lparen location), (lexerAdvance inp st).2)
  else if ch = ')' then ((createPunctuationToken .rparen location), (lexerAdvance inp st).2)
  else if ch = '[' then ((createPunctuationToken .lbracket location), (lexerAdvance inp st).2)
  else if ch = ']' then ((createPunctuationToken .rbracket location), (lexerAdvance inp st).2)
  else if ch = cLBrace then ((createToken .lbrace (some "\x7b") location), (lexerAdvance inp st).2)
  else if ch = cRBrace then ((createToken .rbrace (some "\x7d") location), (lexerAdvance inp st).2)
  else if ch = ';' then ((createPunctuationToken .semicolon location), (lexerAdvance inp st).2)
  else if ch = ',' then ((createPunctuationToken .comma location), (lexerAdvance inp st).2)
  else if ch = '.' then
    let st := (lexerAdvance inp st).2
    if next = '.' then
      let st := (lexerAdvance inp st).2
      if lexerPeekNext inp st = '.' then
        (createPunctuationToken .ellipsis location, (lexerAdvance inp st).2)
      else (createPunctuationToken .dot location, st)
    else (createPunctuationToken .dot location, st)
  else if ch = ':' then ((createPunctuationToken .colon location), (lexerAdvance inp st).2)
  else if ch = '?' then ((createPunctuationToken .question location), (lexerAdvance inp st).2)
  else if ch = '~' then ((createOperatorToken .bitwiseNot location), (lexerAdvance inp st).2)
  else ((createToken .unknown none location), (lexerAdvance inp st).2)

/-! ## The main scanning functions -/

/-- Comment-skipping loop of C lexerNextToken: `while (lexerSkipComment)
lexerSkipWhitespace;`.  lexerSkipComment returns true at end of input
without consuming anything, so the C loop never exits there: exhausting
the fuel (`none`) is exactly that divergence, and the fuel bound is
generous for every terminating run (each true iteration consumes at least
two bytes). -/
def lexerSkipCommentsLoopAux (inp : LexerInput) :
    Nat → LexerState → List Diagnostic → Option (LexerState × List Diagnostic)
  | 0, _, _ => none
  | fuel + 1, st, ds =>
    match lexerSkipComment inp st with
    | (true, st', ds') =>
      lexerSkipCommentsLoopAux inp fuel (lexerSkipWhitespace inp st') (ds ++ ds')
    | (false, st', ds') => some (st', ds ++ ds')

/-- C lexerNextToken: skip whitespace and comments, then dispatch on the
current character.  `none` is the divergence of the comment loop (which
the C code reaches at end of buffer).  The returned diagnostics are the
reports the C code sent to the engine during the call, in order. -/
def lexerNextToken (inp : LexerInput) (st : LexerState) :
    Option (Token × LexerState × List Diagnostic) :=
  let st := lexerSkipWhitespace inp st
  match lexerSkipCommentsLoopAux inp (inp.source.length + 2 - st.position) st [] with
  | none => none
  | some (st, ds) =>
    if lexerIsAtEnd inp st then
      some (createEOFToken (lexerCreateCurrentLocation inp st), st, ds)
    else
      let ch := lexerCurrentChar inp st
      if ch = '#' then
        let (t, st) := lexerReadPreprocessorDirective inp st
        some (t, st, ds)
      else if isalphaC ch || ch = '_' then
        let (t, st) := lexerReadIdentifier inp st
        some (t, st, ds)
      else if isdigitC ch then
        let (t, st) := lexerReadNumber inp st
        some (t, st, ds)
      else if ch = cSQ || (ch = 'L' && lexerPeekNext inp st = cSQ) then
        let (t, st) := lexerReadChar inp st
        some (t, st, ds)
      else if ch = cDQ || (ch = 'L' && lexerPeekNext inp st = cDQ) then
        let (t, st) := lexerReadString inp st
        some (t, st, ds)
      else if ispunctC ch then
        let (t, st) := lexerReadOperatorOrPunctuation inp st
        some (t, st, ds)
      else
        let location := lexerCreateCurrentLocation inp st
        some (createToken .unknown none location, (lexerAdvance inp st).2, ds)

/-- C lexerPeekToken: save position/line/column/lineStartOffset, run
lexerNextToken, restore the four fields.  Restoring all four fields of
the mutable state is restoring the state. -/
def lexerPeekToken (inp : LexerInput) (st : LexerState) :
    Option (Token × LexerState × List Diagnostic) :=
  let savedPosition := st.position
  let savedLine := st.line
  let savedColumn := st.column
  let savedLineStartOffset := st.lineStartOffset
  match lexerNextToken inp st with
  | none => none
  | some (t, st', ds) =>
    some (t, { st' with position := savedPosition, line := savedLine,
                        column := savedColumn,
                        lineStartOffset := savedLineStartOffset }, ds)

/-- C lexerTokenize: repeatedly call lexerNextToken, collecting tokens,
until an EOF token is appended (inclusive).  The C loop is unbounded, so
it takes explicit fuel counted in tokens; `none` means the run did not
complete within the fuel (in particular, a diverging nextToken call makes
every fuel return none). -/
def lexerTokenizeFuel (inp : LexerInput) :
    Nat → LexerState → List Diagnostic →
    Option (List Token × LexerState × List Diagnostic)
  | 0, _, _ => none
  | fuel + 1, st, ds =>
    match lexerNextToken inp st with
    | none => none
    | some (tok, st', ds') =>
      if tok.type = .eof then some ([tok], st', ds ++ ds')
      else
        match lexerTokenizeFuel inp fuel st' (ds ++ ds') with
        | none => none
        | some (toks, st'', ds'') => some (tok :: toks, st'', ds'')

/-- Engine-level batch tokenize: the run's diagnostics applied to the
engine through diagnosticEngineReport, in report order, exactly as the C
calls interleave them. -/
def lexerTokenize (inp : LexerInput) (fuel : Nat) (st : LexerState)
    (eng : DiagnosticEngine) :
    Option (List Token × LexerState × DiagnosticEngine) :=
  match lexerTokenizeFuel inp fuel st [] with
  | none => none
  | some (toks, st', ds) => some (toks, st', applyDiagnostics eng ds)

/-! ## AST node family (src/src/frontend/ast/ast.h, ast_nodes.c)

Nodes are malloc'd structs whose first field carries the location, parent
back-pointer, node-type tag and two function pointers (accept, destroy).
The embedding gives each modelled variant an inductive constructor whose
fields mirror the C struct: a node identity (the malloc address, supplied
by the caller as a fresh Nat), the location, the parent back-reference
(the id of the parent node, or none), and the destroy function pointer
the factory installed, as a tag.  Child pointers become Option fields and
child vectors become lists.  The C node-type tag is the constructor
itself: every factory sets the tag matching its struct. -/

/-- The destroy function pointers that the factory constructors of
ast_nodes.c actually install.  Every expression factory installs
destroyExpression, every statement factory destroyStatement, every
declaration factory destroyDeclaration, every type-specifier factory
destroyTypeSpecifier; createTranslationUnit installs
destroyTranslationUnit; createASTNode installs plain free.  The
variant-specific recursive destructors (destroyBinaryOperatorExpr and
friends) are defined in ast_nodes.c but never installed. -/
inductive DestroyFn where
  | freeOnly
  | dExpression
  | dStatement
  | dDeclaration
  | dTypeSpecifier
  | dTranslationUnit
deriving Repr, DecidableEq

/-- C enum BinaryOperator (ast_nodes.h). -/
inductive BinaryOperator where
  | add | sub | mul | divOp | modOp
  | eqOp | neOp | ltOp | leOp | gtOp | geOp
  | logicalAnd | logicalOr
  | bitwiseAnd | bitwiseOr | bitwiseXor
  | leftShift | rightShift
  | comma
deriving Repr, DecidableEq

/-- C enum CaseKind (ast_nodes.h). -/
inductive CaseKind where
  | caseLabel
  | defaultLabel
deriving Repr, DecidableEq

/-- C enum UnaryOperator (ast_nodes.h). -/
inductive UnaryOperator where
  | postfixInc | postfixDec | prefixInc | prefixDec
  | uPlus | uMinus | uBitwiseNot | uLogicalNot
  | deref | addressOf | uSizeof
deriving Repr, DecidableEq

/-- C enum AssignmentKind (ast_nodes.h). -/
inductive AssignmentKind where
  | aSimple | aAdd | aSub | aMul | aDiv | aMod
  | aShl | aShr | aAnd | aOr | aXor
deriving Repr, DecidableEq

/-- C enum BasicTypeKind (ast_nodes.h), the members used here. -/
inductive BasicTypeKind where
  | bVoid | bChar | bShort | bInt | bLong | bFloat | bDouble
  | bSigned | bUnsigned | bBool | bComplex
deriving Repr, DecidableEq

/-- The modelled AST variants with the exact child fields of their C
structs.  Fields common to every variant (id, location, parent, installed
destroy pointer) come first; expression variants carry the
isLvalue/isConstant structural defaults.  An enum constant is a
(name, value expression) pair, both nullable; the enum declaration's
underlyingType slot, set to null by the factory and owned by semantic
analysis, is not modelled. -/
inductive ANode where
  | identifierExpr (id : Nat) (loc : SourceLocation) (parent : Option Nat)
      (destroyTag : DestroyFn) (isLvalue isConstant : Bool) (name : String)
  | binaryOperatorExpr (id : Nat) (loc : SourceLocation) (parent : Option Nat)
      (destroyTag : DestroyFn) (isLvalue isConstant : Bool)
      (op : BinaryOperator) (left right : Option ANode)
  | functionCallExpr (id : Nat) (loc : SourceLocation) (parent : Option Nat)
      (destroyTag : DestroyFn) (isLvalue isConstant : Bool)
      (callee : Option ANode) (arguments : Option (List ANode))
  | castExpr (id : Nat) (loc : SourceLocation) (parent : Option Nat)
      (destroyTag : DestroyFn) (isLvalue isConstant : Bool)
      (targetType : Option ANode) (operand : Option ANode)
  | switchStatement (id : Nat) (loc : SourceLocation) (parent : Option Nat)
      (destroyTag : DestroyFn) (condition : Option ANode)
      (cases : Option (List ANode))
  | caseStatement (id : Nat) (loc : SourceLocation) (parent : Option Nat)
      (destroyTag : DestroyFn) (kind : CaseKind) (value : Option ANode)
      (statement : Option ANode)
  | variableDeclaration (id : Nat) (loc : SourceLocation) (parent : Option Nat)
      (destroyTag : DestroyFn) (name : String) (type : Option ANode)
      (initializer : Option ANode) (isConst isVolatile : Bool)
  | basicTypeSpecifier (id : Nat) (loc : SourceLocation) (parent : Option Nat)
      (destroyTag : DestroyFn) (kind : BasicTypeKind) (isConst isVolatile : Bool)
  | translationUnit (id : Nat) (loc : SourceLocation) (parent : Option Nat)
      (destroyTag : DestroyFn) (declarations : List ANode)
  | literalExpr (id : Nat) (loc : SourceLocation) (parent : Option Nat)
      (destroyTag : DestroyFn) (isLvalue isConstant : Bool)
      (literalToken : Option Token)
  | unaryOperatorExpr (id : Nat) (loc : SourceLocation) (parent : Option Nat)
      (destroyTag : DestroyFn) (isLvalue isConstant : Bool)
      (op : UnaryOperator) (operand : Option ANode) (prefixForm : Bool)
  | assignmentExpr (id : Nat) (loc : SourceLocation) (parent : Option Nat)
      (destroyTag : DestroyFn) (isLvalue isConstant : Bool)
      (kind : AssignmentKind) (left right : Option ANode)
  | ternaryExpr (id : Nat) (loc : SourceLocation) (parent : Option Nat)
      (destroyTag : DestroyFn) (isLvalue isConstant : Bool)
      (condition thenExpr elseExpr : Option ANode)
  | arraySubscriptExpr (id : Nat) (loc : SourceLocation) (parent : Option Nat)
      (destroyTag : DestroyFn) (isLvalue isConstant : Bool)
      (array index : Option ANode)
  | memberAccessExpr (id : Nat) (loc : SourceLocation) (parent : Option Nat)
      (destroyTag : DestroyFn) (isLvalue isConstant : Bool)
      (baseExpr : Option ANode) (memberName : String) (isArrow : Bool)
  | expressionStatement (id : Nat) (loc : SourceLocation) (parent : Option Nat)
      (destroyTag : DestroyFn) (expression : Option ANode)
  | compoundStatement (id : Nat) (loc : SourceLocation) (parent : Option Nat)
      (destroyTag : DestroyFn) (declarations statements : List ANode)
  | ifStatement (id : Nat) (loc : SourceLocation) (parent : Option Nat)
      (destroyTag : DestroyFn) (condition thenStmt elseStmt : Option ANode)
  | whileStatement (id : Nat) (loc : SourceLocation) (parent : Option Nat)
      (destroyTag : DestroyFn) (condition body : Option ANode)
  | doWhileStatement (id : Nat) (loc : SourceLocation) (parent : Option Nat)
      (destroyTag : DestroyFn) (body condition : Option ANode)
  | forStatement (id : Nat) (loc : SourceLocation) (parent : Option Nat)
      (destroyTag : DestroyFn) (init condition increment body : Option ANode)
  | returnStatement (id : Nat) (loc : SourceLocation) (parent : Option Nat)
      (destroyTag : DestroyFn) (returnValue : Option ANode)
  | breakStatement (id : Nat) (loc : SourceLocation) (parent : Option Nat)
      (destroyTag : DestroyFn)
  | continueStatement (id : Nat) (loc : SourceLocation) (parent : Option Nat)
      (destroyTag : DestroyFn)
  | functionDeclaration (id : Nat) (loc : SourceLocation) (parent : Option Nat)
      (destroyTag : DestroyFn) (name : String) (returnType : Option ANode)
      (parameters : Option (List ANode)) (body : Option ANode)
      (isInline isNoreturn : Bool)
  | structDeclaration (id : Nat) (loc : SourceLocation) (parent : Option Nat)
      (destroyTag : DestroyFn) (name : Option String)
      (members : Option (List ANode)) (isPacked : Bool)
  | unionDeclaration (id : Nat) (loc : SourceLocation) (parent : Option Nat)
      (destroyTag : DestroyFn) (name : Option String)
      (members : Option (List ANode))
  | enumDeclaration (id : Nat) (loc : SourceLocation) (parent : Option Nat)
      (destroyTag : DestroyFn) (name : Option String)
      (constants : Option (List (Option String × Option ANode)))
  | typedefDeclaration (id : Nat) (loc : SourceLocation) (parent : Option Nat)
      (destroyTag : DestroyFn) (name : String) (aliasedType : Option ANode)

/-- Node identity (the malloc address). -/
def ANode.nodeId : ANode → Nat
  | .identifierExpr id _ _ _ _ _ _ => id
  | .binaryOperatorExpr id _ _ _ _ _ _ _ _ => id
  | .functionCallExpr id _ _ _ _ _ _ _ => id
  | .castExpr id _ _ _ _ _ _ _ => id
  | .switchStatement id _ _ _ _ _ => id
  | .caseStatement id _ _ _ _ _ _ => id
  | .variableDeclaration id _ _ _ _ _ _ _ _ => id
  | .basicTypeSpecifier id _ _ _ _ _ _ => id
  | .translationUnit id _ _ _ _ => id
  | .literalExpr id _ _ _ _ _ _ => id
  | .unaryOperatorExpr id _ _ _ _ _ _ _ _ => id
  | .assignmentExpr id _ _ _ _ _ _ _ _ => id
  | .ternaryExpr id _ _ _ _ _ _ _ _ => id
  | .arraySubscriptExpr id _ _ _ _ _ _ _ => id
  | .memberAccessExpr id _ _ _ _ _ _ _ _ => id
  | .expressionStatement id _ _ _ _ => id
  | .compoundStatement id _ _ _ _ _ => id
  | .ifStatement id _ _ _ _ _ _ => id
  | .whileStatement id _ _ _ _ _ => id
  | .doWhileStatement id _ _ _ _ _ => id
  | .forStatement id _ _ _ _ _ _ _ => id
  | .returnStatement id _ _ _ _ => id
  | .breakStatement id _ _ _ => id
  | .continueStatement id _ _ _ => id
  | .functionDeclaration id _ _ _ _ _ _ _ _ _ => id
  | .structDeclaration id _ _ _ _ _ _ => id
  | .unionDeclaration id _ _ _ _ _ => id
  | .enumDeclaration id _ _ _ _ _ => id
  | .typedefDeclaration id _ _ _ _ _ => id

/-- Parent back-reference of a node. -/
def ANode.parentRef : ANode → Option Nat
  | .identifierExpr _ _ p _ _ _ _ => p
  | .binaryOperatorExpr _ _ p _ _ _ _ _ _ => p
  | .functionCallExpr _ _ p _ _ _ _ _ => p
  | .castExpr _ _ p _ _ _ _ _ => p
  | .switchStatement _ _ p _ _ _ => p
  | .caseStatement _ _ p _ _ _ _ => p
  | .variableDeclaration _ _ p _ _ _ _ _ _ => p
  | .basicTypeSpecifier _ _ p _ _ _ _ => p
  | .translationUnit _ _ p _ _ => p
  | .literalExpr _ _ p _ _ _ _ => p
  | .unaryOperatorExpr _ _ p _ _ _ _ _ _ => p
  | .assignmentExpr _ _ p _ _ _ _ _ _ => p
  | .ternaryExpr _ _ p _ _ _ _ _ _ => p
  | .arraySubscriptExpr _ _ p _ _ _ _ _ => p
  | .memberAccessExpr _ _ p _ _ _ _ _ _ => p
  | .expressionStatement _ _ p _ _ => p
  | .compoundStatement _ _ p _ _ _ => p
  | .ifStatement _ _ p _ _ _ _ => p
  | .whileStatement _ _ p _ _ _ => p
  | .doWhileStatement _ _ p _ _ _ => p
  | .forStatement _ _ p _ _ _ _ _ => p
  | .returnStatement _ _ p _ _ => p
  | .breakStatement _ _ p _ => p
  | .continueStatement _ _ p _ => p
  | .functionDeclaration _ _ p _ _ _ _ _ _ _ => p
  | .structDeclaration _ _ p _ _ _ _ => p
  | .unionDeclaration _ _ p _ _ _ => p
  | .enumDeclaration _ _ p _ _ _ => p
  | .typedefDeclaration _ _ p _ _ _ => p

/-- Installed destroy function pointer of a node. -/
def ANode.destroyTagOf : ANode → DestroyFn
  | .identifierExpr _ _ _ d _ _ _ => d
  | .binaryOperatorExpr _ _ _ d _ _ _ _ _ => d
  | .functionCallExpr _ _ _ d _ _ _ _ => d
  | .castExpr _ _ _ d _ _ _ _ => d
  | .switchStatement _ _ _ d _ _ => d
  | .caseStatement _ _ _ d _ _ _ => d
  | .variableDeclaration _ _ _ d _ _ _ _ _ => d
  | .basicTypeSpecifier _ _ _ d _ _ _ => d
  | .translationUnit _ _ _ d _ => d
  | .literalExpr _ _ _ d _ _ _ => d
  | .unaryOperatorExpr _ _ _ d _ _ _ _ _ => d
  | .assignmentExpr _ _ _ d _ _ _ _ _ => d
  | .ternaryExpr _ _ _ d _ _ _ _ _ => d
  | .arraySubscriptExpr _ _ _ d _ _ _ _ => d
  | .memberAccessExpr _ _ _ d _ _ _ _ _ => d
  | .expressionStatement _ _ _ d _ => d
  | .compoundStatement _ _ _ d _ _ => d
  | .ifStatement _ _ _ d _ _ _ => d
  | .whileStatement _ _ _ d _ _ => d
  | .doWhileStatement _ _ _ d _ _ => d
  | .forStatement _ _ _ d _ _ _ _ => d
  | .returnStatement _ _ _ d _ => d
  | .breakStatement _ _ _ d => d
  | .continueStatement _ _ _ d => d
  | .functionDeclaration _ _ _ d _ _ _ _ _ _ => d
  | .structDeclaration _ _ _ d _ _ _ => d
  | .unionDeclaration _ _ _ d _ _ => d
  | .enumDeclaration _ _ _ d _ _ => d
  | .typedefDeclaration _ _ _ d _ _ => d

/-- Overwrite the parent back-reference (the C assignment
`child->base.parent = ...`). -/
def ANode.withParent : ANode → Option Nat → ANode
  | .identifierExpr id loc _ d lv ic nm, p => .identifierExpr id loc p d lv ic nm
  | .binaryOperatorExpr id loc _ d lv ic op l r, p =>
    .binaryOperatorExpr id loc p d lv ic op l r
  | .functionCallExpr id loc _ d lv ic c a, p =>
    .functionCallExpr id loc p d lv ic c a
  | .castExpr id loc _ d lv ic t o, p => .castExpr id loc p d lv ic t o
  | .switchStatement id loc _ d c cs, p => .switchStatement id loc p d c cs
  | .caseStatement id loc _ d k v s, p => .caseStatement id loc p d k v s
  | .variableDeclaration id loc _ d nm t i c v, p =>
    .variableDeclaration id loc p d nm t i c v
  | .basicTypeSpecifier id loc _ d k c v, p => .basicTypeSpecifier id loc p d k c v
  | .translationUnit id loc _ d ds, p => .translationUnit id loc p d ds
  | .literalExpr id loc _ d lv ic tk, p => .literalExpr id loc p d lv ic tk
  | .unaryOperatorExpr id loc _ d lv ic op o pf, p =>
    .unaryOperatorExpr id loc p d lv ic op o pf
  | .assignmentExpr id loc _ d lv ic k l r, p =>
    .assignmentExpr id loc p d lv ic k l r
  | .ternaryExpr id loc _ d lv ic c t e, p => .ternaryExpr id loc p d lv ic c t e
  | .arraySubscriptExpr id loc _ d lv ic a i, p =>
    .arraySubscriptExpr id loc p d lv ic a i
  | .memberAccessExpr id loc _ d lv ic be mn ar, p =>
    .memberAccessExpr id loc p d lv ic be mn ar
  | .expressionStatement id loc _ d e, p => .expressionStatement id loc p d e
  | .compoundStatement id loc _ d ds ss, p => .compoundStatement id loc p d ds ss
  | .ifStatement id loc _ d c t e, p => .ifStatement id loc p d c t e
  | .whileStatement id loc _ d c bd, p => .whileStatement id loc p d c bd
  | .doWhileStatement id loc _ d bd c, p => .doWhileStatement id loc p d bd c
  | .forStatement id loc _ d i c inc bd, p => .forStatement id loc p d i c inc bd
  | .returnStatement id loc _ d r, p => .returnStatement id loc p d r
  | .breakStatement id loc _ d, p => .breakStatement id loc p d
  | .continueStatement id loc _ d, p => .continueStatement id loc p d
  | .functionDeclaration id loc _ d nm rt ps bd il nr, p =>
    .functionDeclaration id loc p d nm rt ps bd il nr
  | .structDeclaration id loc _ d nm ms pk, p =>
    .structDeclaration id loc p d nm ms pk
  | .unionDeclaration id loc _ d nm ms, p => .unionDeclaration id loc p d nm ms
  | .enumDeclaration id loc _ d nm cs, p => .enumDeclaration id loc p d nm cs
  | .typedefDeclaration id loc _ d nm als, p => .typedefDeclaration id loc p d nm als

/-- Left child of a binary-operator expression. -/
def ANode.leftChild : ANode → Option ANode
  | .binaryOperatorExpr _ _ _ _ _ _ _ l _ => l
  | _ => none

/-- Right child of a binary-operator expression. -/
def ANode.rightChild : ANode → Option ANode
  | .binaryOperatorExpr _ _ _ _ _ _ _ _ r => r
  | _ => none

/-- Callee of a function-call expression. -/
def ANode.calleeOf : ANode → Option ANode
  | .functionCallExpr _ _ _ _ _ _ c _ => c
  | _ => none

/-- Argument vector of a function-call expression. -/
def ANode.argumentsOf : ANode → Option (List ANode)
  | .functionCallExpr _ _ _ _ _ _ _ a => a
  | _ => none

/-- Condition child of a switch statement. -/
def ANode.conditionOf : ANode → Option ANode
  | .switchStatement _ _ _ _ c _ => c
  | _ => none

/-- Case vector of a switch statement. -/
def ANode.casesOf : ANode → Option (List ANode)
  | .switchStatement _ _ _ _ _ cs => cs
  | _ => none

/-! ## Factory constructors (ast_nodes.c) -/

/-- C createIdentifierExpr: NULL name refused; installs destroyExpression
(not destroyIdentifierExpr); identifiers default to lvalue. -/
def createIdentifierExpr (name : Option String) (newId : Nat)
    (location : SourceLocation) : Option ANode :=
  match name with
  | none => none
  | some nm =>
    some (.identifierExpr newId location none .dExpression true false nm)

/-- C createBinaryOperatorExpr: installs destroyExpression (the recursive
destroyBinaryOperatorExpr defined below it is never installed) and stamps
the parent back-reference of each non-null child to the new node. -/
def createBinaryOperatorExpr (op : BinaryOperator) (left right : Option ANode)
    (newId : Nat) (location : SourceLocation) : ANode :=
  .binaryOperatorExpr newId location none .dExpression false false op
    (left.map (fun l => l.withParent (some newId)))
    (right.map (fun r => r.withParent (some newId)))

/-- C createFunctionCallExpr: stamps the callee's parent back-reference;
the argument vector is stored as passed — the arguments' parents are not
touched. -/
def createFunctionCallExpr (callee : Option ANode)
    (arguments : Option (List ANode)) (newId : Nat)
    (location : SourceLocation) : ANode :=
  .functionCallExpr newId location none .dExpression false false
    (callee.map (fun c => c.withParent (some newId))) arguments

/-- C createCastExpr: stamps the operand's parent; the target type is
stored as passed (not owned, not stamped). -/
def createCastExpr (targetType : Option ANode) (operand : Option ANode)
    (newId : Nat) (location : SourceLocation) : ANode :=
  .castExpr newId location none .dExpression false false targetType
    (operand.map (fun o => o.withParent (some newId)))

/-- C createSwitchStatement: stamps the condition's parent; the case
vector is stored as passed — the cases' parents are not touched. -/
def createSwitchStatement (condition : Option ANode)
    (cases : Option (List ANode)) (newId : Nat) (location : SourceLocation) :
    ANode :=
  .switchStatement newId location none .dStatement
    (condition.map (fun c => c.withParent (some newId))) cases

/-- C createCaseStatement: stamps value and statement parents. -/
def createCaseStatement (kind : CaseKind) (value : Option ANode)
    (statement : Option ANode) (newId : Nat) (location : SourceLocation) :
    ANode :=
  .caseStatement newId location none .dStatement kind
    (value.map (fun v => v.withParent (some newId)))
    (statement.map (fun s => s.withParent (some newId)))

/-- C createVariableDeclaration: NULL name refused; stamps the
initializer's parent; the type is stored as passed (owned by the type
system). -/
def createVariableDeclaration (name : Option String) (type : Option ANode)
    (initializer : Option ANode) (newId : Nat) (location : SourceLocation) :
    Option ANode :=
  match name with
  | none => none
  | some nm =>
    some (.variableDeclaration newId location none .dDeclaration nm type
      (initializer.map (fun i => i.withParent (some newId))) false false)

/-- C createBasicTypeSpecifier. -/
def createBasicTypeSpecifier (kind : BasicTypeKind) (newId : Nat)
    (location : SourceLocation) : ANode :=
  .basicTypeSpecifier newId location none .dTypeSpecifier kind false false

/-- C createTranslationUnit: empty declaration vector, location zeroed. -/
def createTranslationUnit (newId : Nat) : ANode :=
  .translationUnit newId (createSourceLocation none 0 0 0) none
    .dTranslationUnit []

/-- C createLiteralExpr: the token pointer is stored as passed (may be
null); literals are constant, not lvalues; installs destroyExpression. -/
def createLiteralExpr (literal : Option Token) (newId : Nat)
    (location : SourceLocation) : ANode :=
  .literalExpr newId location none .dExpression false true literal

/-- C createUnaryOperatorExpr: stamps the operand's parent when present. -/
def createUnaryOperatorExpr (op : UnaryOperator) (operand : Option ANode)
    (prefixForm : Bool) (newId : Nat) (location : SourceLocation) : ANode :=
  .unaryOperatorExpr newId location none .dExpression false false op
    (operand.map (fun o => o.withParent (some newId))) prefixForm

/-- C createAssignmentExpr: stamps both operands' parents when present. -/
def createAssignmentExpr (kind : AssignmentKind) (left right : Option ANode)
    (newId : Nat) (location : SourceLocation) : ANode :=
  .assignmentExpr newId location none .dExpression false false kind
    (left.map (fun l => l.withParent (some newId)))
    (right.map (fun r => r.withParent (some newId)))

/-- C createTernaryExpr: stamps all three children's parents when
present. -/
def createTernaryExpr (condition thenExpr elseExpr : Option ANode)
    (newId : Nat) (location : SourceLocation) : ANode :=
  .ternaryExpr newId location none .dExpression false false
    (condition.map (fun c => c.withParent (some newId)))
    (thenExpr.map (fun t => t.withParent (some newId)))
    (elseExpr.map (fun e => e.withParent (some newId)))

/-- C createArraySubscriptExpr: array elements are lvalues; stamps the
array and index parents when present. -/
def createArraySubscriptExpr (array index : Option ANode) (newId : Nat)
    (location : SourceLocation) : ANode :=
  .arraySubscriptExpr newId location none .dExpression true false
    (array.map (fun a => a.withParent (some newId)))
    (index.map (fun i => i.withParent (some newId)))

/-- C createMemberAccessExpr: NULL member name refused; member accesses
are lvalues; stamps the base expression's parent when present. -/
def createMemberAccessExpr (baseExpr : Option ANode)
    (memberName : Option String) (isArrow : Bool) (newId : Nat)
    (location : SourceLocation) : Option ANode :=
  match memberName with
  | none => none
  | some mn =>
    some (.memberAccessExpr newId location none .dExpression true false
      (baseExpr.map (fun be => be.withParent (some newId))) mn isArrow)

/-- C createExpressionStatement: stamps the expression's parent when
present. -/
def createExpressionStatement (expression : Option ANode) (newId : Nat)
    (location : SourceLocation) : ANode :=
  .expressionStatement newId location none .dStatement
    (expression.map (fun e => e.withParent (some newId)))

/-- C createCompoundStatement: fresh empty declaration and statement
vectors. -/
def createCompoundStatement (newId : Nat) (location : SourceLocation) :
    ANode :=
  .compoundStatement newId location none .dStatement [] []

/-- C createIfStatement: stamps condition, then and else parents when
present. -/
def createIfStatement (condition thenStmt elseStmt : Option ANode)
    (newId : Nat) (location : SourceLocation) : ANode :=
  .ifStatement newId location none .dStatement
    (condition.map (fun c => c.withParent (some newId)))
    (thenStmt.map (fun t => t.withParent (some newId)))
    (elseStmt.map (fun e => e.withParent (some newId)))

/-- C createWhileStatement: stamps condition and body parents when
present. -/
def createWhileStatement (condition body : Option ANode) (newId : Nat)
    (location : SourceLocation) : ANode :=
  .whileStatement newId location none .dStatement
    (condition.map (fun c => c.withParent (some newId)))
    (body.map (fun bd => bd.withParent (some newId)))

/-- C createDoWhileStatement: stamps body and condition parents when
present. -/
def createDoWhileStatement (body condition : Option ANode) (newId : Nat)
    (location : SourceLocation) : ANode :=
  .doWhileStatement newId location none .dStatement
    (body.map (fun bd => bd.withParent (some newId)))
    (condition.map (fun c => c.withParent (some newId)))

/-- C createForStatement: stamps every present child's parent. -/
def createForStatement (init condition increment body : Option ANode)
    (newId : Nat) (location : SourceLocation) : ANode :=
  .forStatement newId location none .dStatement
    (init.map (fun i => i.withParent (some newId)))
    (condition.map (fun c => c.withParent (some newId)))
    (increment.map (fun i => i.withParent (some newId)))
    (body.map (fun bd => bd.withParent (some newId)))

/-- C createReturnStatement: stamps the return value's parent when
present. -/
def createReturnStatement (returnValue : Option ANode) (newId : Nat)
    (location : SourceLocation) : ANode :=
  .returnStatement newId location none .dStatement
    (returnValue.map (fun r => r.withParent (some newId)))

/-- C createBreakStatement. -/
def createBreakStatement (newId : Nat) (location : SourceLocation) : ANode :=
  .breakStatement newId location none .dStatement

/-- C createContinueStatement. -/
def createContinueStatement (newId : Nat) (location : SourceLocation) :
    ANode :=
  .continueStatement newId location none .dStatement

/-- C createFunctionDeclaration: NULL name refused; stamps the body's
parent when present — the return type and parameter vector are stored as
passed; isInline and isNoreturn default to false. -/
def createFunctionDeclaration (name : Option String)
    (returnType : Option ANode) (parameters : Option (List ANode))
    (body : Option ANode) (newId : Nat) (location : SourceLocation) :
    Option ANode :=
  match name with
  | none => none
  | some nm =>
    some (.functionDeclaration newId location none .dDeclaration nm
      returnType parameters (body.map (fun bd => bd.withParent (some newId)))
      false false)

/-- C createStructDeclaration: the name is optional (anonymous structs);
the member vector is stored as passed; isPacked defaults to false. -/
def createStructDeclaration (name : Option String)
    (members : Option (List ANode)) (newId : Nat)
    (location : SourceLocation) : ANode :=
  .structDeclaration newId location none .dDeclaration name members false

/-- C createUnionDeclaration: the name is optional; the member vector is
stored as passed. -/
def createUnionDeclaration (name : Option String)
    (members : Option (List ANode)) (newId : Nat)
    (location : SourceLocation) : ANode :=
  .unionDeclaration newId location none .dDeclaration name members

/-- C createEnumDeclaration: the name is optional; the constant vector is
stored as passed. -/
def createEnumDeclaration (name : Option String)
    (constants : Option (List (Option String × Option ANode))) (newId : Nat)
    (location : SourceLocation) : ANode :=
  .enumDeclaration newId location none .dDeclaration name constants

/-- C createTypedefDeclaration: NULL name refused; the aliased type is
stored as passed. -/
def createTypedefDeclaration (name : Option String)
    (aliasedType : Option ANode) (newId : Nat) (location : SourceLocation) :
    Option ANode :=
  match name with
  | none => none
  | some nm =>
    some (.typedefDeclaration newId location none .dDeclaration nm
      aliasedType)

/-! ## Destruction (DESTROY_AST_NODE dispatches the installed pointer) -/

/-- C destroyASTNode / the DESTROY_AST_NODE macro: call the node's
installed destroy pointer.  The result is the list of freed node ids in
free order.  destroyExpression, destroyStatement, destroyDeclaration and
destroyTypeSpecifier free only the node itself (each with its own
non-owned fields); destroyTranslationUnit walks the declaration vector
destroying each element through its own installed pointer, then frees the
unit.  The fuel bounds the recursion depth and one plus the tree depth
always suffices. -/
def destroyASTNode (fuel : Nat) (n : ANode) : List Nat :=
  match fuel with
  | 0 => []
  | fuel + 1 =>
    match n.destroyTagOf with
    | .freeOnly => [n.nodeId]
    | .dExpression => [n.nodeId]
    | .dStatement => [n.nodeId]
    | .dDeclaration => [n.nodeId]
    | .dTypeSpecifier => [n.nodeId]
    | .dTranslationUnit =>
      match n with
      | .translationUnit id _ _ _ decls =>
        (decls.map (destroyASTNode fuel)).flatten ++ [id]
      | _ => [n.nodeId]

/-- C destroyBinaryOperatorExpr (ast_nodes.c, defined but never installed
by any factory): destroy the left subtree, the right subtree — each
through its own installed destroy pointer — then free the node. -/
def destroyBinaryOperatorExprFn (fuel : Nat) (n : ANode) : List Nat :=
  match n with
  | .binaryOperatorExpr id _ _ _ _ _ _ left right =>
    ((left.map (destroyASTNode fuel)).getD []) ++
    ((right.map (destroyASTNode fuel)).getD []) ++ [id]
  | _ => [n.nodeId]

/-! ## Visitor dispatch and traversal (src/src/frontend/ast/ast_visitor.c)

The C visitor is a struct of nullable function pointers plus before/after
hooks.  The callbacks' private effects live outside the tree; the
observable settled here is which callbacks fire on which nodes, so each
variant slot is modelled by whether it is populated, and dispatch emits
the ordered list of (slot, node id) invocation events. -/

/-- Callback slots of the C ASTVisitor struct that can fire in a
traversal over the modelled variants. -/
inductive VisitSlot where
  | beforeVisitHook
  | afterVisitHook
  | genericVisit
  | sTranslationUnit
  | sIdentifierExpr
  | sBinaryOperatorExpr
  | sFunctionCallExpr
  | sCastExpr
  | sSwitchStatement
  | sCaseStatement
  | sVariableDeclaration
  | sBasicTypeSpecifier
  | sLiteralExpr
  | sUnaryOperatorExpr
  | sAssignmentExpr
  | sTernaryExpr
  | sArraySubscriptExpr
  | sMemberAccessExpr
  | sExpressionStatement
  | sCompoundStatement
  | sIfStatement
  | sWhileStatement
  | sDoWhileStatement
  | sForStatement
  | sReturnStatement
  | sBreakStatement
  | sContinueStatement
  | sFunctionDeclaration
  | sStructDeclaration
  | sUnionDeclaration
  | sEnumDeclaration
  | sTypedefDeclaration
deriving Repr, DecidableEq

/-- One callback invocation: which slot fired on which node. -/
abbrev VisitEvent := VisitSlot × Nat

/-- The C ASTVisitor struct over the modelled variants: beforeVisit keeps
its boolean verdict, every other populated slot is a flag. -/
structure ASTVisitor where
  beforeVisit : Option (ANode → Bool)
  afterVisit : Bool
  genericVisit : Bool
  visitTranslationUnit : Bool
  visitIdentifierExpr : Bool
  visitBinaryOperatorExpr : Bool
  visitFunctionCallExpr : Bool
  visitCastExpr : Bool
  visitSwitchStatement : Bool
  visitCaseStatement : Bool
  visitVariableDeclaration : Bool
  visitBasicTypeSpecifier : Bool
  visitLiteralExpr : Bool
  visitUnaryOperatorExpr : Bool
  visitAssignmentExpr : Bool
  visitTernaryExpr : Bool
  visitArraySubscriptExpr : Bool
  visitMemberAccessExpr : Bool
  visitExpressionStatement : Bool
  visitCompoundStatement : Bool
  visitIfStatement : Bool
  visitWhileStatement : Bool
  visitDoWhileStatement : Bool
  visitForStatement : Bool
  visitReturnStatement : Bool
  visitBreakStatement : Bool
  visitContinueStatement : Bool
  visitFunctionDeclaration : Bool
  visitStructDeclaration : Bool
  visitUnionDeclaration : Bool
  visitEnumDeclaration : Bool
  visitTypedefDeclaration : Bool

/-- C createASTVisitor: calloc zeroes every slot. -/
def createASTVisitor : ASTVisitor :=
  { beforeVisit := none, afterVisit := false, genericVisit := false,
    visitTranslationUnit := false, visitIdentifierExpr := false,
    visitBinaryOperatorExpr := false, visitFunctionCallExpr := false,
    visitCastExpr := false, visitSwitchStatement := false,
    visitCaseStatement := false, visitVariableDeclaration := false,
    visitBasicTypeSpecifier := false,
    visitLiteralExpr := false, visitUnaryOperatorExpr := false,
    visitAssignmentExpr := false, visitTernaryExpr := false,
    visitArraySubscriptExpr := false, visitMemberAccessExpr := false,
    visitExpressionStatement := false, visitCompoundStatement := false,
    visitIfStatement := false, visitWhileStatement := false,
    visitDoWhileStatement := false, visitForStatement := false,
    visitReturnStatement := false, visitBreakStatement := false,
    visitContinueStatement := false, visitFunctionDeclaration := false,
    visitStructDeclaration := false, visitUnionDeclaration := false,
    visitEnumDeclaration := false, visitTypedefDeclaration := false }

/-- Variant dispatch of C astNodeAccept: the switch on nodeType fires the
matching slot when populated. -/
def astNodeDispatch (node : ANode) (v : ASTVisitor) : List VisitEvent :=
  match node with
  | .translationUnit .. =>
    if v.visitTranslationUnit then [(.sTranslationUnit, node.nodeId)] else []
  | .identifierExpr .. =>
    if v.visitIdentifierExpr then [(.sIdentifierExpr, node.nodeId)] else []
  | .binaryOperatorExpr .. =>
    if v.visitBinaryOperatorExpr then [(.sBinaryOperatorExpr, node.nodeId)]
    else []
  | .functionCallExpr .. =>
    if v.visitFunctionCallExpr then [(.sFunctionCallExpr, node.nodeId)] else []
  | .castExpr .. =>
    if v.visitCastExpr then [(.sCastExpr, node.nodeId)] else []
  | .switchStatement .. =>
    if v.visitSwitchStatement then [(.sSwitchStatement, node.nodeId)] else []
  | .caseStatement .. =>
    if v.visitCaseStatement then [(.sCaseStatement, node.nodeId)] else []
  | .variableDeclaration .. =>
    if v.visitVariableDeclaration then [(.sVariableDeclaration, node.nodeId)]
    else []
  | .basicTypeSpecifier .. =>
    if v.visitBasicTypeSpecifier then [(.sBasicTypeSpecifier, node.nodeId)]
    else []
  | .literalExpr .. =>
    if v.visitLiteralExpr then [(.sLiteralExpr, node.nodeId)] else []
  | .unaryOperatorExpr .. =>
    if v.visitUnaryOperatorExpr then [(.sUnaryOperatorExpr, node.nodeId)]
    else []
  | .assignmentExpr .. =>
    if v.visitAssignmentExpr then [(.sAssignmentExpr, node.nodeId)] else []
  | .ternaryExpr .. =>
    if v.visitTernaryExpr then [(.sTernaryExpr, node.nodeId)] else []
  | .arraySubscriptExpr .. =>
    if v.visitArraySubscriptExpr then [(.sArraySubscriptExpr, node.nodeId)]
    else []
  | .memberAccessExpr .. =>
    if v.visitMemberAccessExpr then [(.sMemberAccessExpr, node.nodeId)] else []
  | .expressionStatement .. =>
    if v.visitExpressionStatement then [(.sExpressionStatement, node.nodeId)]
    else []
  | .compoundStatement .. =>
    if v.visitCompoundStatement then [(.sCompoundStatement, node.nodeId)]
    else []
  | .ifStatement .. =>
    if v.visitIfStatement then [(.sIfStatement, node.nodeId)] else []
  | .whileStatement .. =>
    if v.visitWhileStatement then [(.sWhileStatement, node.nodeId)] else []
  | .doWhileStatement .. =>
    if v.visitDoWhileStatement then [(.sDoWhileStatement, node.nodeId)] else []
  | .forStatement .. =>
    if v.visitForStatement then [(.sForStatement, node.nodeId)] else []
  | .returnStatement .. =>
    if v.visitReturnStatement then [(.sReturnStatement, node.nodeId)] else []
  | .breakStatement .. =>
    if v.visitBreakStatement then [(.sBreakStatement, node.nodeId)] else []
  | .continueStatement .. =>
    if v.visitContinueStatement then [(.sContinueStatement, node.nodeId)]
    else []
  | .functionDeclaration .. =>
    if v.visitFunctionDeclaration then [(.sFunctionDeclaration, node.nodeId)]
    else []
  | .structDeclaration .. =>
    if v.visitStructDeclaration then [(.sStructDeclaration, node.nodeId)]
    else []
  | .unionDeclaration .. =>
    if v.visitUnionDeclaration then [(.sUnionDeclaration, node.nodeId)] else []
  | .enumDeclaration .. =>
    if v.visitEnumDeclaration then [(.sEnumDeclaration, node.nodeId)] else []
  | .typedefDeclaration .. =>
    if v.visitTypedefDeclaration then [(.sTypedefDeclaration, node.nodeId)]
    else []

/-- C astNodeAccept: beforeVisit hook (a false verdict skips variant
dispatch and the after hook), variant dispatch, afterVisit hook. -/
def astNodeAccept (node : ANode) (v : ASTVisitor) : List VisitEvent :=
  match v.beforeVisit with
  | some f =>
    if !f node then [(.beforeVisitHook, node.nodeId)]
    else
      [(.beforeVisitHook, node.nodeId)] ++ astNodeDispatch node v ++
      (if v.afterVisit then [(.afterVisitHook, node.nodeId)] else [])
  | none =>
    astNodeDispatch node v ++
    (if v.afterVisit then [(.afterVisitHook, node.nodeId)] else [])

/-- C struct ASTTraversalContext. -/
structure ASTTraversalContext where
  depth : Nat
  maxDepth : Nat
  visitChildren : Bool
  stopTraversal : Bool
deriving Repr, DecidableEq

/-- C createASTTraversalContext: depth 0, no depth cap, children visited,
not stopped. -/
def createASTTraversalContext : ASTTraversalContext :=
  { depth := 0, maxDepth := 0, visitChildren := true, stopTraversal := false }

/-- C traverseDFSRecursive.  The child recursion exists only for the
translation-unit and compound-statement cases of the switch; every other
variant falls to the empty default, so the driver does not descend into
expression or statement children.  (In the C, the vector cases read the
element slot address instead of the stored pointer; the model reads the
intended elements, a branch no claim exercises.)  The fuel bounds the
recursion depth; one plus the tree depth always suffices. -/
def traverseDFSRecursive (fuel : Nat) (node : Option ANode) (v : ASTVisitor)
    (ctx : ASTTraversalContext) (preorder : Bool) : List VisitEvent :=
  match fuel with
  | 0 => []
  | fuel + 1 =>
    match node with
    | none => []
    | some node =>
      if ctx.maxDepth > 0 && ctx.depth ≥ ctx.maxDepth then []
      else if ctx.stopTraversal then []
      else
        let ctx' := { ctx with depth := ctx.depth + 1 }
        let pre := if preorder then astNodeAccept node v else []
        let childEvents :=
          if ctx'.visitChildren then
            match node with
            | .translationUnit _ _ _ _ decls =>
              (decls.map
                (fun c => traverseDFSRecursive fuel (some c) v ctx' preorder)).flatten
            | .compoundStatement _ _ _ _ decls stmts =>
              (stmts.map
                (fun c => traverseDFSRecursive fuel (some c) v ctx' preorder)).flatten ++
              (decls.map
                (fun c => traverseDFSRecursive fuel (some c) v ctx' preorder)).flatten
            | _ => []
          else []
        let post := if !preorder then astNodeAccept node v else []
        pre ++ childEvents ++ post

/-- C astTraverseDFS: fresh context with visitChildren set, then the
recursive driver. -/
def astTraverseDFS (fuel : Nat) (root : Option ANode) (v : ASTVisitor)
    (preorder : Bool) : List VisitEvent :=
  match root with
  | none => []
  | some root =>
    let ctx := { createASTTraversalContext with visitChildren := true }
    traverseDFSRecursive fuel (some root) v ctx preorder

/-! ## AST builder (src/src/frontend/ast/ast_builder.c) -/

/-- C validateNodeName: non-empty, no leading digit, only
letters/digits/underscore anywhere (together: a leading letter or
underscore and alphanumeric/underscore throughout). -/
def validateNodeName (name : String) : Bool :=
  match name.toList with
  | [] => false
  | c :: _ =>
    if isdigitC c then false
    else (name.toList.all (fun ch => isalnumC ch || ch = '_'))

/-- C struct ASTBuilder: root translation unit plus the diagnostics
collaborator (the node pool and scope stack are never consulted by the
factory operations). -/
structure ASTBuilder where
  root : ANode
  diagnostics : DiagnosticEngine

/-- C createASTBuilder: fresh translation unit as root. -/
def createASTBuilder (diagnostics : DiagnosticEngine) (rootId : Nat) :
    ASTBuilder :=
  { root := createTranslationUnit rootId, diagnostics := diagnostics }

/-- Append a declaration to the root translation unit's vector
(`vectorPushBack(builder->root->declarations, &decl)`). -/
def astBuilderAppendDecl (b : ASTBuilder) (decl : ANode) : ASTBuilder :=
  match b.root with
  | .translationUnit id loc p d decls =>
    { b with root := .translationUnit id loc p d (decls ++ [decl]) }
  | _ => b

/-- C astBuilderAddVariableDecl: a missing name or type pointer returns
NULL at once, before any diagnostic is emitted; an invalid name emits an
error diagnostic and returns NULL; otherwise the declaration is created
and appended to the translation unit.  (The malloc-failure branch cannot
occur here.)  The message texts render the C literals. -/
def astBuilderAddVariableDecl (b : ASTBuilder) (name : Option String)
    (type : Option ANode) (initializer : Option ANode)
    (location : SourceLocation) (newId : Nat) : Option ANode × ASTBuilder :=
  match name, type with
  | some nm, some ty =>
    if !validateNodeName nm then
      let diags := diagnosticEngineEmitDiagnostic b.diagnostics .error
        "invalid variable name" location
      (none, { b with diagnostics := diags })
    else
      match createVariableDeclaration (some nm) (some ty) initializer newId
          location with
      | some decl => (some decl, astBuilderAppendDecl b decl)
      | none => (none, b)
  | _, _ => (none, b)

/-- C astBuilderCreateIdentifierExpr: a missing builder or name returns
NULL; the name is not validated — the operation delegates directly to the
node factory. -/
def astBuilderCreateIdentifierExpr (b : ASTBuilder) (name : Option String)
    (location : SourceLocation) (newId : Nat) : Option ANode × ASTBuilder :=
  match name with
  | none => (none, b)
  | some nm =>
    match createIdentifierExpr (some nm) newId location with
    | some e => (some e, b)
    | none => (none, b)

/-- C astBuilderAddFunctionDecl: a missing name or return type returns
NULL silently; an invalid name emits an error diagnostic; otherwise the
declaration is created and appended to the translation unit.  (The
malloc-failure branch cannot occur here.) -/
def astBuilderAddFunctionDecl (b : ASTBuilder) (name : Option String)
    (returnType : Option ANode) (parameters : Option (List ANode))
    (body : Option ANode) (location : SourceLocation) (newId : Nat) :
    Option ANode × ASTBuilder :=
  match name, returnType with
  | some nm, some rt =>
    if !validateNodeName nm then
      let diags := diagnosticEngineEmitDiagnostic b.diagnostics .error
        "invalid function name" location
      (none, { b with diagnostics := diags })
    else
      match createFunctionDeclaration (some nm) (some rt) parameters body
          newId location with
      | some decl => (some decl, astBuilderAppendDecl b decl)
      | none => (none, b)
  | _, _ => (none, b)

/-- C astBuilderAddStructDecl: a missing member vector returns NULL
silently; the name is validated only when one is supplied (anonymous
structs are allowed); on success the declaration is appended to the
translation unit. -/
def astBuilderAddStructDecl (b : ASTBuilder) (name : Option String)
    (members : Option (List ANode)) (location : SourceLocation)
    (newId : Nat) : Option ANode × ASTBuilder :=
  match members with
  | none => (none, b)
  | some ms =>
    match name with
    | some nm =>
      if !validateNodeName nm then
        let diags := diagnosticEngineEmitDiagnostic b.diagnostics .error
          "invalid struct name" location
        (none, { b with diagnostics := diags })
      else
        let decl := createStructDeclaration (some nm) (some ms) newId location
        (some decl, astBuilderAppendDecl b decl)
    | none =>
      let decl := createStructDeclaration none (some ms) newId location
      (some decl, astBuilderAppendDecl b decl)

/-- C astBuilderAddUnionDecl: same shape as the struct operation —
members required silently, the name validated only when supplied. -/
def astBuilderAddUnionDecl (b : ASTBuilder) (name : Option String)
    (members : Option (List ANode)) (location : SourceLocation)
    (newId : Nat) : Option ANode × ASTBuilder :=
  match members with
  | none => (none, b)
  | some ms =>
    match name with
    | some nm =>
      if !validateNodeName nm then
        let diags := diagnosticEngineEmitDiagnostic b.diagnostics .error
          "invalid union name" location
        (none, { b with diagnostics := diags })
      else
        let decl := createUnionDeclaration (some nm) (some ms) newId location
        (some decl, astBuilderAppendDecl b decl)
    | none =>
      let decl := createUnionDeclaration none (some ms) newId location
      (some decl, astBuilderAppendDecl b decl)

/-- C astBuilderAddEnumDecl: the constant vector required silently, the
name validated only when supplied. -/
def astBuilderAddEnumDecl (b : ASTBuilder) (name : Option String)
    (constants : Option (List (Option String × Option ANode)))
    (location : SourceLocation) (newId : Nat) : Option ANode × ASTBuilder :=
  match constants with
  | none => (none, b)
  | some cs =>
    match name with
    | some nm =>
      if !validateNodeName nm then
        let diags := diagnosticEngineEmitDiagnostic b.diagnostics .error
          "invalid enum name" location
        (none, { b with diagnostics := diags })
      else
        let decl := createEnumDeclaration (some nm) (some cs) newId location
        (some decl, astBuilderAppendDecl b decl)
    | none =>
      let decl := createEnumDeclaration none (some cs) newId location
      (some decl, astBuilderAppendDecl b decl)

/-- C astBuilderAddTypedefDecl: a missing name or aliased type returns
NULL silently; an invalid name emits an error diagnostic; otherwise the
declaration is created and appended to the translation unit. -/
def astBuilderAddTypedefDecl (b : ASTBuilder) (name : Option String)
    (aliasedType : Option ANode) (location : SourceLocation) (newId : Nat) :
    Option ANode × ASTBuilder :=
  match name, aliasedType with
  | some nm, some als =>
    if !validateNodeName nm then
      let diags := diagnosticEngineEmitDiagnostic b.diagnostics .error
        "invalid typedef name" location
      (none, { b with diagnostics := diags })
    else
      match createTypedefDeclaration (some nm) (some als) newId location with
      | some decl => (some decl, astBuilderAppendDecl b decl)
      | none => (none, b)
  | _, _ => (none, b)

/-- C astBuilderCreateExprStmt: the expression is required silently; no
other validation. -/
def astBuilderCreateExprStmt (b : ASTBuilder) (expression : Option ANode)
    (location : SourceLocation) (newId : Nat) : Option ANode × ASTBuilder :=
  match expression with
  | none => (none, b)
  | some e => (some (createExpressionStatement (some e) newId location), b)

/-- C astBuilderCreateCompoundStmt: no required inputs. -/
def astBuilderCreateCompoundStmt (b : ASTBuilder)
    (location : SourceLocation) (newId : Nat) : Option ANode × ASTBuilder :=
  (some (createCompoundStatement newId location), b)

/-- C astBuilderCreateIfStmt: condition and then-branch required
silently; the else-branch is optional. -/
def astBuilderCreateIfStmt (b : ASTBuilder)
    (condition thenStmt elseStmt : Option ANode)
    (location : SourceLocation) (newId : Nat) : Option ANode × ASTBuilder :=
  match condition, thenStmt with
  | some c, some t =>
    (some (createIfStatement (some c) (some t) elseStmt newId location), b)
  | _, _ => (none, b)

/-- C astBuilderCreateWhileStmt: condition and body required silently. -/
def astBuilderCreateWhileStmt (b : ASTBuilder)
    (condition body : Option ANode) (location : SourceLocation)
    (newId : Nat) : Option ANode × ASTBuilder :=
  match condition, body with
  | some c, some bd =>
    (some (createWhileStatement (some c) (some bd) newId location), b)
  | _, _ => (none, b)

/-- C astBuilderCreateDoWhileStmt: body and condition required
silently. -/
def astBuilderCreateDoWhileStmt (b : ASTBuilder)
    (body condition : Option ANode) (location : SourceLocation)
    (newId : Nat) : Option ANode × ASTBuilder :=
  match body, condition with
  | some bd, some c =>
    (some (createDoWhileStatement (some bd) (some c) newId location), b)
  | _, _ => (none, b)

/-- C astBuilderCreateForStmt: only the body is required silently; init,
condition and increment are optional. -/
def astBuilderCreateForStmt (b : ASTBuilder)
    (init condition increment body : Option ANode)
    (location : SourceLocation) (newId : Nat) : Option ANode × ASTBuilder :=
  match body with
  | none => (none, b)
  | some bd =>
    (some (createForStatement init condition increment (some bd) newId
      location), b)

/-- C astBuilderCreateReturnStmt: no required inputs — the return value
is optional. -/
def astBuilderCreateReturnStmt (b : ASTBuilder)
    (returnValue : Option ANode) (location : SourceLocation) (newId : Nat) :
    Option ANode × ASTBuilder :=
  (some (createReturnStatement returnValue newId location), b)

/-- C astBuilderCreateBreakStmt: no required inputs. -/
def astBuilderCreateBreakStmt (b : ASTBuilder) (location : SourceLocation)
    (newId : Nat) : Option ANode × ASTBuilder :=
  (some (createBreakStatement newId location), b)

/-- C astBuilderCreateContinueStmt: no required inputs. -/
def astBuilderCreateContinueStmt (b : ASTBuilder)
    (location : SourceLocation) (newId : Nat) : Option ANode × ASTBuilder :=
  (some (createContinueStatement newId location), b)

/-- C astBuilderCreateSwitchStmt: condition and case vector required
silently. -/
def astBuilderCreateSwitchStmt (b : ASTBuilder) (condition : Option ANode)
    (cases : Option (List ANode)) (location : SourceLocation) (newId : Nat) :
    Option ANode × ASTBuilder :=
  match condition, cases with
  | some c, some cs =>
    (some (createSwitchStatement (some c) (some cs) newId location), b)
  | _, _ => (none, b)

/-- C astBuilderCreateCaseStmt: the statement is required silently; then
a case label (as opposed to a default label) with an absent value
expression emits an error diagnostic and returns NULL; otherwise the
statement is created. -/
def astBuilderCreateCaseStmt (b : ASTBuilder) (kind : CaseKind)
    (value : Option ANode) (statement : Option ANode)
    (location : SourceLocation) (newId : Nat) : Option ANode × ASTBuilder :=
  match statement with
  | none => (none, b)
  | some stmt =>
    match kind, value with
    | .caseLabel, none =>
      let diags := diagnosticEngineEmitDiagnostic b.diagnostics .error
        "case label needs a value expression" location
      (none, { b with diagnostics := diags })
    | k, v => (some (createCaseStatement k v (some stmt) newId location), b)

/-- C astBuilderCreateLiteralExpr: no required inputs — the token pointer
may be absent. -/
def astBuilderCreateLiteralExpr (b : ASTBuilder) (literal : Option Token)
    (location : SourceLocation) (newId : Nat) : Option ANode × ASTBuilder :=
  (some (createLiteralExpr literal newId location), b)

/-- C astBuilderCreateBinaryOpExpr: both operands required silently. -/
def astBuilderCreateBinaryOpExpr (b : ASTBuilder) (op : BinaryOperator)
    (left right : Option ANode) (location : SourceLocation) (newId : Nat) :
    Option ANode × ASTBuilder :=
  match left, right with
  | some l, some r =>
    (some (createBinaryOperatorExpr op (some l) (some r) newId location), b)
  | _, _ => (none, b)

/-- C astBuilderCreateUnaryOpExpr: the operand required silently. -/
def astBuilderCreateUnaryOpExpr (b : ASTBuilder) (op : UnaryOperator)
    (operand : Option ANode) (prefixForm : Bool)
    (location : SourceLocation) (newId : Nat) : Option ANode × ASTBuilder :=
  match operand with
  | none => (none, b)
  | some o =>
    (some (createUnaryOperatorExpr op (some o) prefixForm newId location), b)

/-- C astBuilderCreateAssignmentExpr: both sides required silently. -/
def astBuilderCreateAssignmentExpr (b : ASTBuilder) (kind : AssignmentKind)
    (left right : Option ANode) (location : SourceLocation) (newId : Nat) :
    Option ANode × ASTBuilder :=
  match left, right with
  | some l, some r =>
    (some (createAssignmentExpr kind (some l) (some r) newId location), b)
  | _, _ => (none, b)

/-- C astBuilderCreateTernaryExpr: all three operands required
silently. -/
def astBuilderCreateTernaryExpr (b : ASTBuilder)
    (condition thenExpr elseExpr : Option ANode)
    (location : SourceLocation) (newId : Nat) : Option ANode × ASTBuilder :=
  match condition, thenExpr, elseExpr with
  | some c, some t, some e =>
    (some (createTernaryExpr (some c) (some t) (some e) newId location), b)
  | _, _, _ => (none, b)

/-- C astBuilderCreateFunctionCallExpr: the callee required silently; the
argument vector is optional. -/
def astBuilderCreateFunctionCallExpr (b : ASTBuilder)
    (callee : Option ANode) (arguments : Option (List ANode))
    (location : SourceLocation) (newId : Nat) : Option ANode × ASTBuilder :=
  match callee with
  | none => (none, b)
  | some c =>
    (some (createFunctionCallExpr (some c) arguments newId location), b)

/-- C astBuilderCreateArraySubscriptExpr: array and index required
silently. -/
def astBuilderCreateArraySubscriptExpr (b : ASTBuilder)
    (array index : Option ANode) (location : SourceLocation) (newId : Nat) :
    Option ANode × ASTBuilder :=
  match array, index with
  | some a, some i =>
    (some (createArraySubscriptExpr (some a) (some i) newId location), b)
  | _, _ => (none, b)

/-- C astBuilderCreateMemberAccessExpr: base expression and member name
required silently; the member name is not validated — the operation
delegates to the node factory. -/
def astBuilderCreateMemberAccessExpr (b : ASTBuilder)
    (baseExpr : Option ANode) (memberName : Option String) (isArrow : Bool)
    (location : SourceLocation) (newId : Nat) : Option ANode × ASTBuilder :=
  match baseExpr, memberName with
  | some be, some mn =>
    match createMemberAccessExpr (some be) (some mn) isArrow newId
        location with
    | some e => (some e, b)
    | none => (none, b)
  | _, _ => (none, b)

/-- C astBuilderCreateCastExpr: target type and operand required
silently. -/
def astBuilderCreateCastExpr (b : ASTBuilder)
    (targetType operand : Option ANode) (location : SourceLocation)
    (newId : Nat) : Option ANode × ASTBuilder :=
  match targetType, operand with
  | some tt, some o =>
    (some (createCastExpr (some tt) (some o) newId location), b)
  | _, _ => (none, b)

/-! ## Concrete fixtures used by the claim theorems -/

/-- First token of a buffer lexed from scratch. -/
def lexFirstToken (s : String) : Option Token :=
  (lexerNextToken (createLexer s none).1 (createLexer s none).2).map
    (fun r => r.1)

/-- Result of the first nextToken call on a fresh buffer, with its
diagnostics. -/
def lexFirstResult (s : String) : Option (Token × List Diagnostic) :=
  (lexerNextToken (createLexer s none).1 (createLexer s none).2).map
    (fun r => (r.1, r.2.2))

/-- Location fixture for the AST examples. -/
def locF : SourceLocation := createSourceLocation none 1 1 0

/-- Identifier leaf a (malloc address 1). -/
def leafA : Option ANode := createIdentifierExpr (some "a") 1 locF

/-- Identifier leaf b (malloc address 2). -/
def leafB : Option ANode := createIdentifierExpr (some "b") 2 locF

/-- Identifier leaf c (malloc address 3). -/
def leafC : Option ANode := createIdentifierExpr (some "c") 3 locF

/-- The expression b * c (malloc address 4). -/
def mulBC : ANode := createBinaryOperatorExpr .mul leafB leafC 4 locF

/-- The expression a + b * c (malloc address 5): a binary operator whose
right child is a binary operator over identifier leaves. -/
def addABC : ANode := createBinaryOperatorExpr .add leafA (some mulBC) 5 locF

/-- The binary tree of C1: a + b with leaves at addresses 1 and 2, root at
address 3. -/
def binAB : ANode := createBinaryOperatorExpr .add leafA leafB 3 locF

/-- A visitor populating only the binary-operator-expression callback. -/
def binOnlyVisitor : ASTVisitor :=
  { createASTVisitor with visitBinaryOperatorExpr := true }

/-- Builder fixture over a fresh engine (root translation unit at address
0). -/
def builderF : ASTBuilder := createASTBuilder createDiagnosticEngine 0

/-- Callee identifier f for the function-call fixture (address 1). -/
def calleeF : Option ANode := createIdentifierExpr (some "f") 1 locF

/-- Argument identifier x for the function-call fixture (address 2),
parent unset as the factory receives it. -/
def argX : ANode := ANode.identifierExpr 2 locF none .dExpression true false "x"

/-- Function call f(x) built by the factory (address 3). -/
def callFX : ANode := createFunctionCallExpr calleeF (some [argX]) 3 locF

/-- A case statement fixture (address 6), parent unset. -/
def caseStmtF : ANode :=
  ANode.caseStatement 6 locF none .dStatement .defaultLabel none none

/-- Switch condition identifier s (address 5). -/
def condS : Option ANode := createIdentifierExpr (some "s") 5 locF

/-- Switch statement over one case built by the factory (address 7). -/
def switchF : ANode := createSwitchStatement condS (some [caseStmtF]) 7 locF

/-- Engine with error suppression enabled through the setter. -/
def engSuppressedErrors : DiagnosticEngine :=
  diagnosticEngineSetSuppressErrors createDiagnosticEngine true

/-- Engine with warning suppression enabled through the setter. -/
def engSuppressedWarnings : DiagnosticEngine :=
  diagnosticEngineSetSuppressWarnings createDiagnosticEngine true

/-! ## Helper lemmas -/

/-- Overwriting the parent back-reference stores exactly the given
reference. -/
theorem ANode.parentRef_withParent (n : ANode) (p : Option Nat) :
    (n.withParent p).parentRef = p := by
  cases n <;> rfl

/-! ## Claim theorems -/

/-- Claim C1 (code_bug evaluation).  Every factory of ast_nodes.c installs
the non-recursive base destructor — createBinaryOperatorExpr installs
destroyExpression, which frees only the node itself — so destroying the
binary-operator expression a + b through its destroy operation frees only
the root (address 3) and never destroys the children at addresses 1 and 2.
The recursive destroyBinaryOperatorExpr defined in ast_nodes.c, which no
factory installs, would have freed left, right, then the node. -/
theorem claim1_binary_destroy_frees_only_root :
    destroyASTNode 5 binAB = [3] ∧
    destroyBinaryOperatorExprFn 5 binAB = [1, 2, 3] := by
  exact ⟨rfl, rfl⟩

/-- Claim C2 (code_bug evaluation).  On the empty buffer the batch
tokenize never terminates: lexerSkipComment returns true at end of input
without consuming anything, so the comment-skipping loop of lexerNextToken
spins forever and no EOF token is ever produced.  Whatever fuel the
tokenize loop is given, the run fails to complete. -/
theorem claim2_tokenize_diverges_on_empty_input (fuel : Nat)
    (eng : DiagnosticEngine) :
    lexerTokenize (createLexer "" none).1 fuel (createLexer "" none).2 eng =
      none := by
  cases fuel with
  | zero => rfl
  | succ n => rfl

/-- Claim C3 (code_bug evaluation).  Running the depth-first driver over
a + b * c with a visitor populating only the binary-operator callback
fires that callback exactly once — on the root node (address 5) — and no
other callback: traverseDFSRecursive recurses into children only for
translation-unit and compound-statement nodes, so the driver never
descends into the expression's operands. -/
theorem claim3_dfs_visits_root_binary_only :
    astTraverseDFS 10 (some addABC) binOnlyVisitor true =
      [(.sBinaryOperatorExpr, 5)] := by
  rfl

/-- Claim C4 (code_bug evaluation).  None of the recoverable lexical
errors is reported: an unterminated string literal, an unterminated
character literal and an invalid escape sequence each still yield a token
and the scan continues, but the diagnostic list of the call is empty in
all three cases (only the unterminated block comment is ever reported,
per C5). -/
theorem claim4_lexical_errors_not_reported :
    (lexFirstResult "\"abc").map (fun r => (r.1.type, r.2)) =
      some (.stringLiteral, []) ∧
    (lexFirstResult "'a").map (fun r => (r.1.type, r.2)) =
      some (.charLiteral, []) ∧
    (lexFirstResult "\"\\q\"").map (fun r => (r.1.type, r.2)) =
      some (.stringLiteral, []) := by
  exact ⟨rfl, rfl, rfl⟩

/-- Claim C5 (confirmed).  Tokenizing the buffer of a single unterminated
block comment reports exactly one diagnostic, of Fatal level, located at
the opening slash-star (line 1, column 1, offset 0 — not the end-of-file
position, which is column 11, offset 10), counts one error, and still
returns the EOF-terminated token sequence. -/
theorem claim5_unterminated_comment_fatal_at_start :
    (lexerTokenize (createLexer "/* comment" none).1 3
        (createLexer "/* comment" none).2 createDiagnosticEngine).map
      (fun r =>
        (r.1.map Token.type,
         r.2.2.emitted.map (fun d => (d.level, d.location)),
         diagnosticEngineGetErrorCount r.2.2)) =
      some ([.eof], [(.fatal, createSourceLocation none 1 1 0)], 1) := by
  rfl

/-- Claim C7 (confirmed).  Number-base fidelity: 0x1A lexes to an integer
literal of value 26 marked hexadecimal, 017 to value 15 marked octal,
0b101 to value 5 marked binary, and 3.14e2 to a float literal of value
314. -/
theorem claim7_number_base_fidelity :
    (lexFirstToken "0x1A").map (fun t => (t.type, t.value, t.literalType)) =
      some (.integerLiteral, .intValue 26, .hexadecimal) ∧
    (lexFirstToken "017").map (fun t => (t.type, t.value, t.literalType)) =
      some (.integerLiteral, .intValue 15, .octal) ∧
    (lexFirstToken "0b101").map (fun t => (t.type, t.value, t.literalType)) =
      some (.integerLiteral, .intValue 5, .binary) ∧
    (lexFirstToken "3.14e2").map (fun t => (t.type, t.value, t.literalType)) =
      some (.floatLiteral, .floatValue 314, .double) := by
  refine ⟨rfl, rfl, rfl, ?_⟩
  have hv : strtodC ['3', '.', '1', '4', 'e', '2'] = 314 := by
    have h : strtodC ['3', '.', '1', '4', 'e', '2'] =
        (((3 : Nat) : Rat) + ((14 : Nat) : Rat) / (10 : Rat) ^ (2 : Nat)) *
          (10 : Rat) ^ (2 : Nat) := rfl
    rw [h]
    norm_num
  have ht : lexFirstToken "3.14e2" =
      some (createFloatToken "3.14e2" (createSourceLocation none 1 1 0)) := rfl
  rw [ht]
  simp [createFloatToken, createTokenWithFloatValue, createToken, hv]

/-- Claim C8 (confirmed).  lexerPeekToken saves and restores the full
position/line/column/line-start state around its internal lexerNextToken
call: whenever nextToken completes with a token, peekToken returns that
same token, the same diagnostics, and the lexer state it leaves behind is
the original state — so the next nextToken call (a function of that
state) returns the same token. -/
theorem claim8_peek_has_no_lexer_side_effect (inp : LexerInput)
    (st : LexerState) (t : Token) (st' : LexerState) (ds : List Diagnostic)
    (h : lexerNextToken inp st = some (t, st', ds)) :
    lexerPeekToken inp st = some (t, st, ds) := by
  simp [lexerPeekToken, h]

/-- Witness for C8 at a concrete input: peeking at the buffer "ab"
returns the identifier token and leaves the fresh lexer state unchanged. -/
theorem claim8_peek_witness :
    lexerPeekToken (createLexer "ab" none).1 (createLexer "ab" none).2 =
      some (createToken .identifier (some "ab") (createSourceLocation none 1 1 0),
        (createLexer "ab" none).2, []) :=
  claim8_peek_has_no_lexer_side_effect _ _ _ _ _ (by rfl)

/-- Claim C9 (counterexample).  createFunctionCallExpr stamps the
callee's parent to the new node (address 3) but leaves the parent of the
argument expression it was handed untouched (none), and
createSwitchStatement likewise leaves its case statement's parent
untouched — refuting that every factory stamps each supplied child's
parent back-reference. -/
theorem claim9_vector_children_not_stamped :
    (callFX.argumentsOf.getD []).map ANode.parentRef = [none] ∧
    callFX.calleeOf.map ANode.parentRef = some (some 3) ∧
    (switchF.casesOf.getD []).map ANode.parentRef = [none] ∧
    switchF.conditionOf.map ANode.parentRef = some (some 7) := by
  exact ⟨rfl, rfl, rfl, rfl⟩

/-- Claim C9 (amended).  The factory constructors stamp the parent
back-reference of every scalar child slot — both operands of a binary
operator, the callee of a call, the condition of a switch — to the newly
constructed node, while child nodes supplied inside vectors (call
arguments, switch cases) are stored as passed, their parent references
unchanged. -/
theorem claim9_scalar_children_stamped (op : BinaryOperator) (l r : ANode)
    (callee : ANode) (args : Option (List ANode)) (cond : ANode)
    (cases : Option (List ANode)) (newId : Nat) (loc : SourceLocation) :
    ((createBinaryOperatorExpr op (some l) (some r) newId loc).leftChild.map
      ANode.parentRef = some (some newId)) ∧
    ((createBinaryOperatorExpr op (some l) (some r) newId loc).rightChild.map
      ANode.parentRef = some (some newId)) ∧
    ((createFunctionCallExpr (some callee) args newId loc).calleeOf.map
      ANode.parentRef = some (some newId)) ∧
    ((createFunctionCallExpr (some callee) args newId loc).argumentsOf =
      args) ∧
    ((createSwitchStatement (some cond) cases newId loc).conditionOf.map
      ANode.parentRef = some (some newId)) ∧
    ((createSwitchStatement (some cond) cases newId loc).casesOf = cases) := by
  refine ⟨?_, ?_, ?_, rfl, ?_, rfl⟩ <;>
    simp [createBinaryOperatorExpr, createFunctionCallExpr,
      createSwitchStatement, ANode.leftChild, ANode.rightChild,
      ANode.calleeOf, ANode.conditionOf, ANode.parentRef_withParent]

/-- Claim C10 (confirmed).  When suppression is enabled, a reported
Error- or Fatal-level diagnostic is discarded before any counter update
or consumer hand-off: the engine is returned unchanged, so errorCount()
and hasErrors() are unchanged and nothing reaches the consumer;
symmetrically a suppressed warning leaves warningCount() unchanged. -/
theorem claim10_suppressed_reports_change_nothing (eng : DiagnosticEngine)
    (level : DiagnosticLevel) (loc : SourceLocation) (msg : String) :
    (eng.suppressErrors = true → (level = .error ∨ level = .fatal) →
      diagnosticEngineReport eng level loc msg = eng ∧
      diagnosticEngineGetErrorCount (diagnosticEngineReport eng level loc msg) =
        diagnosticEngineGetErrorCount eng ∧
      diagnosticEngineHasErrors (diagnosticEngineReport eng level loc msg) =
        diagnosticEngineHasErrors eng ∧
      (diagnosticEngineReport eng level loc msg).emitted = eng.emitted) ∧
    (eng.suppressWarnings = true → level = .warning →
      diagnosticEngineReport eng level loc msg = eng ∧
      diagnosticEngineGetWarningCount (diagnosticEngineReport eng level loc msg) =
        diagnosticEngineGetWarningCount eng) := by
  constructor
  · rintro hs (rfl | rfl) <;>
      simp [diagnosticEngineReport, hs]
  · rintro hs rfl
    simp [diagnosticEngineReport, hs]

/-- Witness for C10 at concrete engines built through the suppression
setters: a fatal report on an error-suppressed engine and a warning on a
warning-suppressed engine both leave the engine unchanged. -/
theorem claim10_suppression_witness :
    diagnosticEngineReport engSuppressedErrors .fatal locF "m" =
      engSuppressedErrors ∧
    diagnosticEngineReport engSuppressedWarnings .warning locF "m" =
      engSuppressedWarnings :=
  ⟨((claim10_suppressed_reports_change_nothing engSuppressedErrors .fatal locF
      "m").1 rfl (Or.inr rfl)).1,
   ((claim10_suppressed_reports_change_nothing engSuppressedWarnings .warning
      locF "m").2 rfl rfl).1⟩

/-- Claim C6 (counterexample).  Two validation failures that report
nothing: astBuilderAddVariableDecl with an absent required type returns
absent and leaves the builder — its diagnostics included — completely
unchanged, and astBuilderCreateIdentifierExpr accepts the invalid
identifier name "1x" (leading digit) without any validation, returning
the node and an unchanged builder — refuting that every builder factory
operation reports a descriptive error on every validation failure of its
required inputs. -/
theorem claim6_unreported_validation_failures :
    astBuilderAddVariableDecl builderF (some "x") none none locF 1 =
      (none, builderF) ∧
    astBuilderCreateIdentifierExpr builderF (some "1x") locF 2 =
      (some (ANode.identifierExpr 2 locF none .dExpression true false "1x"),
        builderF) :=
  ⟨rfl, rfl⟩

/-- Claim C6 (amended).  Complete validation-and-reporting behavior of
all twenty-seven builder factory operations: an absent required pointer
argument makes the operation return absent silently through its leading
guard, with no diagnostic; the only reported validation failures are an
invalid identifier name in the six addXDecl operations (for
struct/union/enum only when a name is supplied — anonymous ones are
allowed and created without validation) and an absent value expression
for a case-label statement in createCaseStmt, each emitting one error
diagnostic and returning absent; every successful addXDecl appends the
created declaration to the translation unit's ordered declaration
sequence; every createYStmt/createZExpr operation with its required
inputs present delegates to the node factory without validating any
identifier name and returns the created node with the builder
unchanged. -/
theorem claim6_builder_validation_and_reporting (b : ASTBuilder)
    (nm mn : String) (os : Option String) (n1 n2 n3 : ANode)
    (o1 o2 o3 : Option ANode) (ol : Option (List ANode)) (ms : List ANode)
    (ecs : List (Option String × Option ANode)) (tk : Option Token)
    (k : CaseKind) (bop : BinaryOperator) (uop : UnaryOperator)
    (ak : AssignmentKind) (ar pf : Bool) (loc : SourceLocation)
    (newId : Nat) :
    astBuilderAddVariableDecl b none o1 o2 loc newId = (none, b) ∧
    astBuilderAddVariableDecl b (some nm) none o2 loc newId = (none, b) ∧
    astBuilderAddFunctionDecl b none o1 ol o2 loc newId = (none, b) ∧
    astBuilderAddFunctionDecl b (some nm) none ol o2 loc newId = (none, b) ∧
    astBuilderAddStructDecl b os none loc newId = (none, b) ∧
    astBuilderAddUnionDecl b os none loc newId = (none, b) ∧
    astBuilderAddEnumDecl b os none loc newId = (none, b) ∧
    astBuilderAddTypedefDecl b none o1 loc newId = (none, b) ∧
    astBuilderAddTypedefDecl b (some nm) none loc newId = (none, b) ∧
    astBuilderCreateExprStmt b none loc newId = (none, b) ∧
    astBuilderCreateIfStmt b none o1 o2 loc newId = (none, b) ∧
    astBuilderCreateIfStmt b (some n1) none o2 loc newId = (none, b) ∧
    astBuilderCreateWhileStmt b none o1 loc newId = (none, b) ∧
    astBuilderCreateWhileStmt b (some n1) none loc newId = (none, b) ∧
    astBuilderCreateDoWhileStmt b none o1 loc newId = (none, b) ∧
    astBuilderCreateDoWhileStmt b (some n1) none loc newId = (none, b) ∧
    astBuilderCreateForStmt b o1 o2 o3 none loc newId = (none, b) ∧
    astBuilderCreateSwitchStmt b none ol loc newId = (none, b) ∧
    astBuilderCreateSwitchStmt b (some n1) none loc newId = (none, b) ∧
    astBuilderCreateCaseStmt b k o1 none loc newId = (none, b) ∧
    astBuilderCreateIdentifierExpr b none loc newId = (none, b) ∧
    astBuilderCreateBinaryOpExpr b bop none o1 loc newId = (none, b) ∧
    astBuilderCreateBinaryOpExpr b bop (some n1) none loc newId =
      (none, b) ∧
    astBuilderCreateUnaryOpExpr b uop none pf loc newId = (none, b) ∧
    astBuilderCreateAssignmentExpr b ak none o1 loc newId = (none, b) ∧
    astBuilderCreateAssignmentExpr b ak (some n1) none loc newId =
      (none, b) ∧
    astBuilderCreateTernaryExpr b none o1 o2 loc newId = (none, b) ∧
    astBuilderCreateTernaryExpr b (some n1) none o2 loc newId = (none, b) ∧
    astBuilderCreateTernaryExpr b (some n1) (some n2) none loc newId =
      (none, b) ∧
    astBuilderCreateFunctionCallExpr b none ol loc newId = (none, b) ∧
    astBuilderCreateArraySubscriptExpr b none o1 loc newId = (none, b) ∧
    astBuilderCreateArraySubscriptExpr b (some n1) none loc newId =
      (none, b) ∧
    astBuilderCreateMemberAccessExpr b none os ar loc newId = (none, b) ∧
    astBuilderCreateMemberAccessExpr b (some n1) none ar loc newId =
      (none, b) ∧
    astBuilderCreateCastExpr b none o1 loc newId = (none, b) ∧
    astBuilderCreateCastExpr b (some n1) none loc newId = (none, b) ∧
    astBuilderAddVariableDecl b (some nm) (some n1) o1 loc newId =
      (if validateNodeName nm then
        some (ANode.variableDeclaration newId loc none .dDeclaration nm
          (some n1) (o1.map (fun i => i.withParent (some newId))) false false)
       else none,
       if validateNodeName nm then
        astBuilderAppendDecl b
          (ANode.variableDeclaration newId loc none .dDeclaration nm
            (some n1) (o1.map (fun i => i.withParent (some newId))) false
            false)
       else
        ASTBuilder.mk b.root
          (diagnosticEngineReport b.diagnostics .error loc
            "invalid variable name")) ∧
    astBuilderAddFunctionDecl b (some nm) (some n1) ol o1 loc newId =
      (if validateNodeName nm then
        some (ANode.functionDeclaration newId loc none .dDeclaration nm
          (some n1) ol (o1.map (fun bd => bd.withParent (some newId))) false
          false)
       else none,
       if validateNodeName nm then
        astBuilderAppendDecl b
          (ANode.functionDeclaration newId loc none .dDeclaration nm
            (some n1) ol (o1.map (fun bd => bd.withParent (some newId)))
            false false)
       else
        ASTBuilder.mk b.root
          (diagnosticEngineReport b.diagnostics .error loc
            "invalid function name")) ∧
    astBuilderAddStructDecl b (some nm) (some ms) loc newId =
      (if validateNodeName nm then
        some (ANode.structDeclaration newId loc none .dDeclaration
          (some nm) (some ms) false)
       else none,
       if validateNodeName nm then
        astBuilderAppendDecl b
          (ANode.structDeclaration newId loc none .dDeclaration (some nm)
            (some ms) false)
       else
        ASTBuilder.mk b.root
          (diagnosticEngineReport b.diagnostics .error loc
            "invalid struct name")) ∧
    astBuilderAddStructDecl b none (some ms) loc newId =
      (some (ANode.structDeclaration newId loc none .dDeclaration none
        (some ms) false),
       astBuilderAppendDecl b
         (ANode.structDeclaration newId loc none .dDeclaration none
           (some ms) false)) ∧
    astBuilderAddUnionDecl b (some nm) (some ms) loc newId =
      (if validateNodeName nm then
        some (ANode.unionDeclaration newId loc none .dDeclaration (some nm)
          (some ms))
       else none,
       if validateNodeName nm then
        astBuilderAppendDecl b
          (ANode.unionDeclaration newId loc none .dDeclaration (some nm)
            (some ms))
       else
        ASTBuilder.mk b.root
          (diagnosticEngineReport b.diagnostics .error loc
            "invalid union name")) ∧
    astBuilderAddUnionDecl b none (some ms) loc newId =
      (some (ANode.unionDeclaration newId loc none .dDeclaration none
        (some ms)),
       astBuilderAppendDecl b
         (ANode.unionDeclaration newId loc none .dDeclaration none
           (some ms))) ∧
    astBuilderAddEnumDecl b (some nm) (some ecs) loc newId =
      (if validateNodeName nm then
        some (ANode.enumDeclaration newId loc none .dDeclaration (some nm)
          (some ecs))
       else none,
       if validateNodeName nm then
        astBuilderAppendDecl b
          (ANode.enumDeclaration newId loc none .dDeclaration (some nm)
            (some ecs))
       else
        ASTBuilder.mk b.root
          (diagnosticEngineReport b.diagnostics .error loc
            "invalid enum name")) ∧
    astBuilderAddEnumDecl b none (some ecs) loc newId =
      (some (ANode.enumDeclaration newId loc none .dDeclaration none
        (some ecs)),
       astBuilderAppendDecl b
         (ANode.enumDeclaration newId loc none .dDeclaration none
           (some ecs))) ∧
    astBuilderAddTypedefDecl b (some nm) (some n1) loc newId =
      (if validateNodeName nm then
        some (ANode.typedefDeclaration newId loc none .dDeclaration nm
          (some n1))
       else none,
       if validateNodeName nm then
        astBuilderAppendDecl b
          (ANode.typedefDeclaration newId loc none .dDeclaration nm
            (some n1))
       else
        ASTBuilder.mk b.root
          (diagnosticEngineReport b.diagnostics .error loc
            "invalid typedef name")) ∧
    astBuilderCreateCaseStmt b .caseLabel none (some n1) loc newId =
      (none,
       ASTBuilder.mk b.root
         (diagnosticEngineReport b.diagnostics .error loc
           "case label needs a value expression")) ∧
    astBuilderCreateCaseStmt b .caseLabel (some n2) (some n1) loc newId =
      (some (createCaseStatement .caseLabel (some n2) (some n1) newId loc),
        b) ∧
    astBuilderCreateCaseStmt b .defaultLabel o1 (some n1) loc newId =
      (some (createCaseStatement .defaultLabel o1 (some n1) newId loc), b) ∧
    astBuilderCreateCompoundStmt b loc newId =
      (some (createCompoundStatement newId loc), b) ∧
    astBuilderCreateReturnStmt b o1 loc newId =
      (some (createReturnStatement o1 newId loc), b) ∧
    astBuilderCreateBreakStmt b loc newId =
      (some (createBreakStatement newId loc), b) ∧
    astBuilderCreateContinueStmt b loc newId =
      (some (createContinueStatement newId loc), b) ∧
    astBuilderCreateLiteralExpr b tk loc newId =
      (some (createLiteralExpr tk newId loc), b) ∧
    astBuilderCreateExprStmt b (some n1) loc newId =
      (some (createExpressionStatement (some n1) newId loc), b) ∧
    astBuilderCreateIfStmt b (some n1) (some n2) o1 loc newId =
      (some (createIfStatement (some n1) (some n2) o1 newId loc), b) ∧
    astBuilderCreateWhileStmt b (some n1) (some n2) loc newId =
      (some (createWhileStatement (some n1) (some n2) newId loc), b) ∧
    astBuilderCreateDoWhileStmt b (some n1) (some n2) loc newId =
      (some (createDoWhileStatement (some n1) (some n2) newId loc), b) ∧
    astBuilderCreateForStmt b o1 o2 o3 (some n1) loc newId =
      (some (createForStatement o1 o2 o3 (some n1) newId loc), b) ∧
    astBuilderCreateSwitchStmt b (some n1) (some ms) loc newId =
      (some (createSwitchStatement (some n1) (some ms) newId loc), b) ∧
    astBuilderCreateIdentifierExpr b (some nm) loc newId =
      (some (ANode.identifierExpr newId loc none .dExpression true false nm),
        b) ∧
    astBuilderCreateBinaryOpExpr b bop (some n1) (some n2) loc newId =
      (some (createBinaryOperatorExpr bop (some n1) (some n2) newId loc),
        b) ∧
    astBuilderCreateUnaryOpExpr b uop (some n1) pf loc newId =
      (some (createUnaryOperatorExpr uop (some n1) pf newId loc), b) ∧
    astBuilderCreateAssignmentExpr b ak (some n1) (some n2) loc newId =
      (some (createAssignmentExpr ak (some n1) (some n2) newId loc), b) ∧
    astBuilderCreateTernaryExpr b (some n1) (some n2) (some n3) loc newId =
      (some (createTernaryExpr (some n1) (some n2) (some n3) newId loc),
        b) ∧
    astBuilderCreateFunctionCallExpr b (some n1) ol loc newId =
      (some (createFunctionCallExpr (some n1) ol newId loc), b) ∧
    astBuilderCreateArraySubscriptExpr b (some n1) (some n2) loc newId =
      (some (createArraySubscriptExpr (some n1) (some n2) newId loc), b) ∧
    astBuilderCreateMemberAccessExpr b (some n1) (some mn) ar loc newId =
      (some (ANode.memberAccessExpr newId loc none .dExpression true false
        (some (n1.withParent (some newId))) mn ar), b) ∧
    astBuilderCreateCastExpr b (some n1) (some n2) loc newId =
      (some (createCastExpr (some n1) (some n2) newId loc), b) := by
  repeat' apply And.intro
  all_goals try rfl
  all_goals
    by_cases h : validateNodeName nm <;>
      simp [astBuilderAddVariableDecl, astBuilderAddFunctionDecl,
        astBuilderAddStructDecl, astBuilderAddUnionDecl,
        astBuilderAddEnumDecl, astBuilderAddTypedefDecl,
        astBuilderCreateCaseStmt, createVariableDeclaration,
        createFunctionDeclaration, createStructDeclaration,
        createUnionDeclaration, createEnumDeclaration,
        createTypedefDeclaration, diagnosticEngineEmitDiagnostic, h]
